import Mathlib

/-!
Verification development for the eWaterCycle configuration module
(`src/ewatercycle/config/__init__.py`).

The Python module defines a pydantic (v1) `BaseModel` named `Configuration`
with `validate_assignment = True` and `extra = "forbid"`, two post
`root_validator`s (`singularity_dir_is_deprecated`, then
`prepend_root_to_parameterset_paths`), a `pre=True` field validator
`expand_user_in_paths` on five of the path fields, YAML load/save helpers,
an in-place `overwrite`, and module-level source resolution
(`_find_user_config` over `_SOURCES`).

The embedding below replaces the filesystem by an explicit `FS` value
(home directory, current working directory, the sets of existing
directories and files, and the parsed content of readable YAML files),
paths by strings, and each fallible operation by an `Except` value.
YAML text serialization itself is out of scope (the spec treats it as an
external collaborator); `dump_to_yaml` is embedded at the level of the
key/value mapping it emits, which is exactly what the round-trip claim
consumes.
-/

/-- Boolean prefix test on character lists (used to embed Python string
`startswith`-style checks without any stdlib prefix machinery). -/
def listStarts : List Char → List Char → Bool
  | [], _ => true
  | _ :: _, [] => false
  | a :: as, b :: bs => a == b && listStarts as bs

/-- `strStarts pre s` embeds Python's `s.startswith(pre)`. -/
def strStarts (pre s : String) : Bool :=
  listStarts pre.data s.data

/-- Embeds `pathlib.Path.expanduser`: a path equal to `~` becomes the home
directory, a path starting with `~/` has the `~` replaced by the home
directory, anything else is returned unchanged (`~user` forms for unknown
users are also returned unchanged by Python; known other users are not
modelled). -/
def expanduser (home p : String) : String :=
  if p = "~" then home
  else if strStarts "~/" p then home ++ p.drop 1
  else p

/-- A path is absolute when it starts with `/`. -/
def isAbsPath (p : String) : Bool := strStarts "/" p

/-- Embeds `pathlib` `parent / p`: an absolute right operand replaces the
parent. -/
def joinPath (root p : String) : String :=
  if isAbsPath p then p else root ++ "/" ++ p

/-- Embeds making a path absolute against the current working directory
(the final step of `Path.resolve()`). -/
def resolveCwd (cwd p : String) : String :=
  if isAbsPath p then p else cwd ++ "/" ++ p

/-- Modelled from the spec: the external `ParameterSet` collaborator is
consumed only through a settable `name`, its `directory` and `config` path
attributes, and a `make_absolute(root)` operation; it is constructible
from a plain key/value mapping.  Only that interface is embedded. -/
structure ParameterSet where
  name : String
  directory : String
  config : String
deriving DecidableEq, Repr

/-- A raw parameter-set entry as it appears in construction input: either a
plain mapping (promoted to a `ParameterSet`) or an already constructed
`ParameterSet` value. -/
inductive RawPS
  | mapping (name directory config : String)
  | already (ps : ParameterSet)
deriving DecidableEq, Repr

/-- A raw Python value supplied for one field: a string, `None`, or a
mapping of parameter-set entries. -/
inductive RawValue
  | str (s : String)
  | nullv
  | psets (entries : List (String × RawPS))
deriving DecidableEq, Repr

/-- The keyword arguments of one `Configuration(...)` construction: each
declared field is either absent (pydantic then uses the field default,
without validating it) or present with a raw value.  `extra` lists any
keys outside the declared field set (`extra = "forbid"`). -/
structure RawConfig where
  grdc_location : Option RawValue := none
  container_engine : Option RawValue := none
  apptainer_dir : Option RawValue := none
  singularity_dir : Option RawValue := none
  output_dir : Option RawValue := none
  parameterset_dir : Option RawValue := none
  parameter_sets : Option RawValue := none
  ewatercycle_config : Option RawValue := none
  extra : List String := []
deriving DecidableEq, Repr

/-- The ambient filesystem state: the user's home directory, the current
working directory, the existing directories, the existing regular files,
and the parsed mapping stored in each readable YAML file. -/
structure FS where
  home : String
  cwd : String
  dirs : List String
  files : List String
  fileData : List (String × RawConfig) := []

/-- Does the path exist at all (Python `Path.exists()`, true for files and
directories alike)? -/
def FS.pathExists (fs : FS) (p : String) : Bool :=
  fs.dirs.contains p || fs.files.contains p

/-- Python `Path.is_dir()`. -/
def FS.isDir (fs : FS) (p : String) : Bool := fs.dirs.contains p

/-- Python `Path.is_file()`. -/
def FS.isFile (fs : FS) (p : String) : Bool := fs.files.contains p

/-- Opening and YAML-parsing a path: succeeds only on an existing regular
file whose parsed mapping is known; opening a directory fails at the OS
level. -/
def FS.readFile (fs : FS) (p : String) : Option RawConfig :=
  if fs.isFile p then fs.fileData.lookup p else none

/-- The `ContainerEngine` literal type. -/
inductive ContainerEngine
  | docker
  | apptainer
  | singularity
deriving DecidableEq, Repr

/-- The validated `Configuration` record (field order as declared in the
source). -/
structure Configuration where
  grdc_location : String
  container_engine : ContainerEngine
  apptainer_dir : String
  singularity_dir : Option String
  output_dir : String
  parameterset_dir : String
  parameter_sets : List (String × ParameterSet)
  ewatercycle_config : Option String
deriving DecidableEq, Repr

/-- The record built from the declared field defaults
(`Path(".")`, `"docker"`, `None`, `{}`). -/
def defaultConfig : Configuration :=
  { grdc_location := "."
    container_engine := .docker
    apptainer_dir := "."
    singularity_dir := none
    output_dir := "."
    parameterset_dir := "."
    parameter_sets := []
    ewatercycle_config := none }

/-- One entry of a pydantic `ValidationError`: the error location (field
name, later possibly prefixed with the source file) and its message. -/
structure FieldErr where
  loc : String
  msg : String
deriving DecidableEq, Repr

/-- pydantic `DirectoryPath`: the path must exist and be a directory. -/
def dirCheck (fs : FS) (loc p : String) : Except (List FieldErr) String :=
  if fs.pathExists p = false then
    .error [⟨loc, "file or directory at path \"" ++ p ++ "\" does not exist"⟩]
  else if fs.isDir p then .ok p
  else .error [⟨loc, "path \"" ++ p ++ "\" does not point to a directory"⟩]

/-- pydantic `FilePath`: the path must exist and be a regular file. -/
def fileCheck (fs : FS) (loc p : String) : Except (List FieldErr) String :=
  if fs.pathExists p = false then
    .error [⟨loc, "file or directory at path \"" ++ p ++ "\" does not exist"⟩]
  else if fs.isFile p then .ok p
  else .error [⟨loc, "path \"" ++ p ++ "\" does not point to a file"⟩]

/-- Validate a `DirectoryPath` field.  `expand` is true exactly for the
fields listed in the `expand_user_in_paths` pre-validator
(`grdc_location`, `apptainer_dir`, `output_dir`, `parameterset_dir`,
`ewatercycle_config`); note `singularity_dir` is not among them. -/
def checkDirField (fs : FS) (loc : String) (expand : Bool) :
    RawValue → Except (List FieldErr) String
  | .str s => dirCheck fs loc (if expand then expanduser fs.home s else s)
  | .nullv => .error [⟨loc, "none is not an allowed value"⟩]
  | .psets _ => .error [⟨loc, "value is not a valid path"⟩]

/-- Validate an `Optional[DirectoryPath]` field. -/
def checkOptDirField (fs : FS) (loc : String) (expand : Bool) :
    RawValue → Except (List FieldErr) (Option String)
  | .str s => (dirCheck fs loc (if expand then expanduser fs.home s else s)).map some
  | .nullv => .ok none
  | .psets _ => .error [⟨loc, "value is not a valid path"⟩]

/-- Validate the `Optional[FilePath]` field `ewatercycle_config` (which is
in the `expand_user_in_paths` list). -/
def checkOptFileField (fs : FS) (loc : String) :
    RawValue → Except (List FieldErr) (Option String)
  | .str s => (fileCheck fs loc (expanduser fs.home s)).map some
  | .nullv => .ok none
  | .psets _ => .error [⟨loc, "value is not a valid path"⟩]

/-- Validate the `Literal["docker", "apptainer", "singularity"]` field. -/
def checkEngineField (loc : String) :
    RawValue → Except (List FieldErr) ContainerEngine
  | .str s =>
    if s = "docker" then .ok .docker
    else if s = "apptainer" then .ok .apptainer
    else if s = "singularity" then .ok .singularity
    else .error [⟨loc, "unexpected value; permitted: docker, apptainer, singularity"⟩]
  | _ => .error [⟨loc, "unexpected value; permitted: docker, apptainer, singularity"⟩]

/-- Promote a raw parameter-set entry to a `ParameterSet` value (pydantic
coerces mappings into the declared value type `Dict[str, ParameterSet]`). -/
def promotePS : RawPS → ParameterSet
  | .mapping n d c => ⟨n, d, c⟩
  | .already ps => ps

/-- Validate the `Dict[str, ParameterSet]` field. -/
def checkPsetsField (loc : String) :
    RawValue → Except (List FieldErr) (List (String × ParameterSet))
  | .psets es => .ok (es.map fun kp => (kp.1, promotePS kp.2))
  | _ => .error [⟨loc, "value is not a valid dict"⟩]

/-- Apply a field validator to a provided value, or use the unvalidated
default when the field is absent (pydantic v1 does not validate
defaults). -/
def vField {α : Type} (o : Option RawValue) (dflt : α)
    (f : RawValue → Except (List FieldErr) α) : Except (List FieldErr) α :=
  match o with
  | none => .ok dflt
  | some v => f v

/-- One `extra fields not permitted` error per key outside the declared
field set (`Config.extra = "forbid"`). -/
def vExtras (extra : List String) : Except (List FieldErr) Unit :=
  if extra.isEmpty then .ok ()
  else .error (extra.map fun k => ⟨k, "extra fields not permitted"⟩)

/-- The error list carried by a validation outcome (empty on success). -/
def errsOf {α : Type} : Except (List FieldErr) α → List FieldErr
  | .ok _ => []
  | .error e => e

/-- Per-field validation stage of `Configuration` construction: every
declared field is validated (or defaulted), unknown keys are rejected, and
all field errors are aggregated into one validation error. -/
def fieldStage (fs : FS) (raw : RawConfig) :
    Except (List FieldErr) Configuration :=
  let r1 := vField raw.grdc_location "." (checkDirField fs "grdc_location" true)
  let r2 := vField raw.container_engine .docker (checkEngineField "container_engine")
  let r3 := vField raw.apptainer_dir "." (checkDirField fs "apptainer_dir" true)
  let r4 := vField raw.singularity_dir none (checkOptDirField fs "singularity_dir" false)
  let r5 := vField raw.output_dir "." (checkDirField fs "output_dir" true)
  let r6 := vField raw.parameterset_dir "." (checkDirField fs "parameterset_dir" true)
  let r7 := vField raw.parameter_sets [] (checkPsetsField "parameter_sets")
  let r8 := vField raw.ewatercycle_config none (checkOptFileField fs "ewatercycle_config")
  let rx := vExtras raw.extra
  match r1, r2, r3, r4, r5, r6, r7, r8, rx with
  | .ok a, .ok b, .ok c, .ok d, .ok e, .ok f, .ok g, .ok h, .ok _ =>
      .ok ⟨a, b, c, d, e, f, g, h⟩
  | e1, e2, e3, e4, e5, e6, e7, e8, e9 =>
      .error (errsOf e1 ++ errsOf e2 ++ errsOf e3 ++ errsOf e4 ++ errsOf e5 ++
              errsOf e6 ++ errsOf e7 ++ errsOf e8 ++ errsOf e9)

/-- Root validator `singularity_dir_is_deprecated`: when `singularity_dir`
is set, emit a deprecation warning and move the value into
`apptainer_dir`, clearing `singularity_dir`.  The warning interpolates
`values.get("ewatercycle_config", "in-memory object")`; after field
validation the `ewatercycle_config` key is always present (its default is
`None`), so the `.get` fallback is unreachable and the f-string renders
Python `None` as the text `None`. -/
def migrate (c : Configuration) : Configuration × List String :=
  match c.singularity_dir with
  | none => (c, [])
  | some d =>
    let file := match c.ewatercycle_config with
      | some f => f
      | none => "None"
    ({ c with apptainer_dir := d, singularity_dir := none },
     ["singularity_dir field has been deprecated please use apptainer_dir in " ++ file])

/-- Modelled from the spec: `ParameterSet.make_absolute(root)` (external
collaborator, not under the embedded sources) rewrites the entry's
relative `directory` and `config` paths against `root`, expanding the
home-directory shorthand and anchoring still-relative results at the
working directory. -/
def ParameterSet.make_absolute (fs : FS) (root : String) (ps : ParameterSet) :
    ParameterSet :=
  { ps with
    directory := resolveCwd fs.cwd (joinPath root (expanduser fs.home ps.directory))
    config := resolveCwd fs.cwd (joinPath root (expanduser fs.home ps.config)) }

/-- The loop body of root validator `prepend_root_to_parameterset_paths`:
set each entry's `name` to its key, make its paths absolute against
`parameterset_dir`, then `assert` that the resolved directory and config
paths exist (Python stops at the first failing `assert`; pydantic reports
it as a `__root__` validation error). -/
def resolveEntries (fs : FS) (root : String) :
    List (String × ParameterSet) →
      Except (List FieldErr) (List (String × ParameterSet))
  | [] => .ok []
  | (k, ps) :: rest =>
    let ps1 := ParameterSet.make_absolute fs root { ps with name := k }
    if fs.pathExists ps1.directory = false then
      .error [⟨"__root__", ps1.directory ++ " must exist"⟩]
    else if fs.pathExists ps1.config = false then
      .error [⟨"__root__", ps1.config ++ " must exist"⟩]
    else (resolveEntries fs root rest).map fun l => (k, ps1) :: l

/-- Root validator `prepend_root_to_parameterset_paths` as a whole. -/
def rootPsets (fs : FS) (c : Configuration) :
    Except (List FieldErr) Configuration :=
  (resolveEntries fs c.parameterset_dir c.parameter_sets).map
    fun l => { c with parameter_sets := l }

/-- Run the two post root validators in declaration order (deprecation
migration, then parameter-set resolution), returning the updated record
and the emitted warnings. -/
def runRootValidators (fs : FS) (c : Configuration) :
    Except (List FieldErr) (Configuration × List String) :=
  (rootPsets fs (migrate c).1).map fun c2 => (c2, (migrate c).2)

/-- How a `Configuration(...)` construction can fail: with an aggregated
pydantic `ValidationError`, or with an uncaught Python exception — the
`KeyError` that `prepend_root_to_parameterset_paths` raises via
`values["parameterset_dir"]` when that key is absent.  pydantic converts
only `ValueError`/`TypeError`/`AssertionError` raised inside validators
into validation errors; a `KeyError` propagates raw. -/
inductive ConstructFailure
  | validation (errs : List FieldErr)
  | keyError (key : String)
deriving DecidableEq, Repr

/-- `values.get("parameter_sets", {})` as seen by the parameter-set root
validator: the validated value when the field validated, the empty mapping
when the key is absent from `values` (the field failed its own
validation). -/
def psetsOrEmpty (r : Except (List FieldErr) (List (String × ParameterSet))) :
    List (String × ParameterSet) :=
  match r with
  | .ok l => l
  | .error _ => []

/-- `Configuration(**raw)`, following pydantic v1 `validate_model`:

* per-field validation fills `values` (validated values, or the
  unvalidated default for absent fields) and collects all field and
  extra-key errors; a field that fails validation leaves its key absent
  from `values`;
* both post root validators are declared with `skip_on_failure = False`,
  so they run even when field errors were collected.
  `singularity_dir_is_deprecated` only uses `values.get` and cannot raise.
  `prepend_root_to_parameterset_paths` first evaluates
  `values["parameterset_dir"]`: when that key is absent (the field was
  supplied and failed its own validation) this raises an uncaught
  `KeyError` and the whole construction crashes with it, losing the
  collected errors; otherwise its `assert`s contribute `__root__` errors
  (`values.get("parameter_sets", {})` makes a failed `parameter_sets`
  field contribute nothing);
* if any errors were collected the result is one aggregated
  `ValidationError`, else the validated record and the emitted
  deprecation warnings.  (Warnings emitted during a failing construction
  go to Python's global warnings channel and are not part of the returned
  outcome.) -/
def construct (fs : FS) (raw : RawConfig) :
    Except ConstructFailure (Configuration × List String) :=
  match fieldStage fs raw with
  | .ok c =>
    match runRootValidators fs c with
    | .ok cw => .ok cw
    | .error errs => .error (.validation errs)
  | .error errs =>
    match vField raw.parameterset_dir "." (checkDirField fs "parameterset_dir" true) with
    | .error _ => .error (.keyError "parameterset_dir")
    | .ok root =>
      match resolveEntries fs root
          (psetsOrEmpty (vField raw.parameter_sets [] (checkPsetsField "parameter_sets"))) with
      | .error rootErrs => .error (.validation (errs ++ rootErrs))
      | .ok _ => .error (.validation errs)

/-- The declared fields, in declaration order (`self.dict().keys()`). -/
inductive CfgField
  | grdc_location
  | container_engine
  | apptainer_dir
  | singularity_dir
  | output_dir
  | parameterset_dir
  | parameter_sets
  | ewatercycle_config
deriving DecidableEq, Repr

/-- One validated field assignment (`validate_assignment = True`): the
assigned value runs through its field validators (including the `pre`
expansion where applicable); on success the post root validators run on
the updated record and the result is written back. -/
def setField (fs : FS) (c : Configuration) :
    CfgField → RawValue → Except (List FieldErr) (Configuration × List String)
  | .grdc_location, v =>
    match checkDirField fs "grdc_location" true v with
    | .error e => .error e
    | .ok p => runRootValidators fs { c with grdc_location := p }
  | .container_engine, v =>
    match checkEngineField "container_engine" v with
    | .error e => .error e
    | .ok en => runRootValidators fs { c with container_engine := en }
  | .apptainer_dir, v =>
    match checkDirField fs "apptainer_dir" true v with
    | .error e => .error e
    | .ok p => runRootValidators fs { c with apptainer_dir := p }
  | .singularity_dir, v =>
    match checkOptDirField fs "singularity_dir" false v with
    | .error e => .error e
    | .ok p => runRootValidators fs { c with singularity_dir := p }
  | .output_dir, v =>
    match checkDirField fs "output_dir" true v with
    | .error e => .error e
    | .ok p => runRootValidators fs { c with output_dir := p }
  | .parameterset_dir, v =>
    match checkDirField fs "parameterset_dir" true v with
    | .error e => .error e
    | .ok p => runRootValidators fs { c with parameterset_dir := p }
  | .parameter_sets, v =>
    match checkPsetsField "parameter_sets" v with
    | .error e => .error e
    | .ok l => runRootValidators fs { c with parameter_sets := l }
  | .ewatercycle_config, v =>
    match checkOptFileField fs "ewatercycle_config" v with
    | .error e => .error e
    | .ok p => runRootValidators fs { c with ewatercycle_config := p }

/-- The declared field names, in declaration order. -/
def fieldNames : List String :=
  ["grdc_location", "container_engine", "apptainer_dir", "singularity_dir",
   "output_dir", "parameterset_dir", "parameter_sets", "ewatercycle_config"]

/-- Attribute assignment by name (`CFG.<name> = value`): a name outside
the declared field set is rejected (`extra = "forbid"`, shown in the
module docstring as `extra fields not permitted`), otherwise the
assignment is validated by `setField`. -/
def setattrRaw (fs : FS) (c : Configuration) (name : String) (v : RawValue) :
    Except (List FieldErr) (Configuration × List String) :=
  if name = "grdc_location" then setField fs c .grdc_location v
  else if name = "container_engine" then setField fs c .container_engine v
  else if name = "apptainer_dir" then setField fs c .apptainer_dir v
  else if name = "singularity_dir" then setField fs c .singularity_dir v
  else if name = "output_dir" then setField fs c .output_dir v
  else if name = "parameterset_dir" then setField fs c .parameterset_dir v
  else if name = "parameter_sets" then setField fs c .parameter_sets v
  else if name = "ewatercycle_config" then setField fs c .ewatercycle_config v
  else .error [⟨name, "extra fields not permitted"⟩]

/-- The string form of a `ContainerEngine` value (as serialized by
`self.json()`). -/
def engineToString : ContainerEngine → String
  | .docker => "docker"
  | .apptainer => "apptainer"
  | .singularity => "singularity"

/-- The raw value corresponding to an optional path attribute read back
from another instance. -/
def optRaw : Option String → RawValue
  | some s => .str s
  | none => .nullv

/-- `Configuration.overwrite(other)`: for each key of `self.dict()` in
declaration order, `setattr(self, key, getattr(other, key))`; every
assignment runs the full validation pipeline of `setField` and mutates the
receiver in place (embedded as state passing). -/
def overwrite (fs : FS) (a b : Configuration) :
    Except (List FieldErr) Configuration := do
  let (a, _) ← setField fs a .grdc_location (.str b.grdc_location)
  let (a, _) ← setField fs a .container_engine (.str (engineToString b.container_engine))
  let (a, _) ← setField fs a .apptainer_dir (.str b.apptainer_dir)
  let (a, _) ← setField fs a .singularity_dir (optRaw b.singularity_dir)
  let (a, _) ← setField fs a .output_dir (.str b.output_dir)
  let (a, _) ← setField fs a .parameterset_dir (.str b.parameterset_dir)
  let (a, _) ← setField fs a .parameter_sets
      (.psets (b.parameter_sets.map fun kp => (kp.1, .already kp.2)))
  let (a, _) ← setField fs a .ewatercycle_config (optRaw b.ewatercycle_config)
  return a

/-- The key/value mapping emitted by `dump_to_yaml` /` _save_to_stream`:
`self.json(exclude={"ewatercycle_config"}, exclude_none=True)` re-emitted
as YAML.  `ewatercycle_config` is always excluded; `exclude_none` drops
exactly the fields whose value is `None` (for a validated record only
`singularity_dir` can be); every other field is emitted, including an
empty `parameter_sets` mapping. -/
def dumpMapping (c : Configuration) : List (String × RawValue) :=
  [("grdc_location", .str c.grdc_location),
   ("container_engine", .str (engineToString c.container_engine)),
   ("apptainer_dir", .str c.apptainer_dir)]
  ++ (match c.singularity_dir with
      | some d => [("singularity_dir", .str d)]
      | none => [])
  ++ [("output_dir", .str c.output_dir),
      ("parameterset_dir", .str c.parameterset_dir),
      ("parameter_sets", .psets (c.parameter_sets.map
          fun kp => (kp.1, .mapping kp.2.name kp.2.directory kp.2.config)))]

/-- Route one parsed mapping key to the corresponding keyword argument;
unknown keys are collected for the `extra = "forbid"` rejection. -/
def applyKey (raw : RawConfig) (k : String) (v : RawValue) : RawConfig :=
  if k = "grdc_location" then { raw with grdc_location := some v }
  else if k = "container_engine" then { raw with container_engine := some v }
  else if k = "apptainer_dir" then { raw with apptainer_dir := some v }
  else if k = "singularity_dir" then { raw with singularity_dir := some v }
  else if k = "output_dir" then { raw with output_dir := some v }
  else if k = "parameterset_dir" then { raw with parameterset_dir := some v }
  else if k = "parameter_sets" then { raw with parameter_sets := some v }
  else if k = "ewatercycle_config" then { raw with ewatercycle_config := some v }
  else { raw with extra := raw.extra ++ [k] }

/-- Interpret a parsed plain mapping as construction keyword arguments. -/
def rawOfMapping (l : List (String × RawValue)) : RawConfig :=
  l.foldl (fun r kv => applyKey r kv.1 kv.2) {}

/-- The error taxonomy of the load path: a pydantic validation error, the
`FileNotFoundError` raised by `load_from_file`, the `IOError` raised by
`_read_config_file`, and the OS-level error raised by `open()` on a path
that exists but is not a readable regular file (e.g. a directory). -/
inductive LoadError
  | validation (errs : List FieldErr)
  | fileNotFound (msg : String)
  | ioError (msg : String)
  | osError (path : String)
  | keyError (key : String)
deriving DecidableEq, Repr

/-- Modelled from the spec: `ewatercycle.util.to_absolute_path` (external
helper, not under the embedded sources) expands the home shorthand and
resolves the path against the working directory. -/
def to_absolute_path (fs : FS) (p : String) : String :=
  resolveCwd fs.cwd (expanduser fs.home p)

/-- `_read_config_file`: resolve the path, raise `IOError` when it does
not exist, otherwise open and YAML-parse it. -/
def _read_config_file (fs : FS) (p : String) : Except LoadError RawConfig :=
  let q := to_absolute_path fs p
  if fs.pathExists q = false then
    .error (.ioError ("Config file `" ++ q ++ "` does not exist."))
  else
    match fs.readFile q with
    | some m => .ok m
    | none => .error (.osError q)

/-- `Configuration._load_user_config`: read the mapping, construct with
`ewatercycle_config = filename`, and prefix the filename onto every
validation error location (the `except ValidationError` clause does not
catch a `KeyError` crash, which propagates unchanged). -/
def _load_user_config (fs : FS) (filename : String) :
    Except LoadError (Configuration × List String) :=
  match _read_config_file fs filename with
  | .error e => .error e
  | .ok mapping =>
    match construct fs { mapping with ewatercycle_config := some (.str filename) } with
    | .ok cw => .ok cw
    | .error (.validation errs) =>
      .error (.validation (errs.map fun e => ⟨filename ++ ":" ++ e.loc, e.msg⟩))
    | .error (.keyError k) => .error (.keyError k)

/-- `Configuration.load_from_file`: resolve the path, raise
`FileNotFoundError` when it does not exist (before any reading or
validation), otherwise load a fresh configuration from it and overwrite
the receiver in place. -/
def load_from_file (fs : FS) (self : Configuration) (filename : String) :
    Except LoadError Configuration :=
  let path := to_absolute_path fs filename
  if fs.pathExists path = false then
    .error (.fileNotFound ("Cannot find: `" ++ filename))
  else
    match _load_user_config fs path with
    | .error e => .error e
    | .ok (newc, _) =>
      match overwrite fs self newc with
      | .ok c => .ok c
      | .error errs => .error (.validation errs)

/-- `_FILENAME`. -/
def _FILENAME : String := "ewatercycle.yaml"

/-- `USER_HOME_CONFIG`: `$XDG_CONFIG_HOME` (or `~/.config`) joined with
`ewatercycle/ewatercycle.yaml`. -/
def user_home_config (xdg : Option String) (home : String) : String :=
  (match xdg with
   | some x => x
   | none => home ++ "/.config") ++ "/ewatercycle/" ++ _FILENAME

/-- `SYSTEM_CONFIG`: `/etc/ewatercycle.yaml`. -/
def system_config : String := "/etc/" ++ _FILENAME

/-- `_SOURCES`: the candidate config files in priority order. -/
def _SOURCES (xdg : Option String) (home : String) : List String :=
  [user_home_config xdg home, system_config]

/-- `_find_user_config`: the first candidate for which `Path.exists()` is
true (note: `exists()`, not `is_file()`), or none. -/
def _find_user_config (fs : FS) (sources : List String) : Option String :=
  sources.find? fun s => fs.pathExists s

/-- Decidable field-value invariant of a validated instance on a sane
filesystem: `singularity_dir` is cleared, every path-valued field is a
fixed point of home expansion, a set provenance file exists as a regular
file, and every parameter-set entry is named by its key with absolute,
existing paths.  (A freshly constructed instance can escape the
expansion-fixedness part only through a literal `~`-prefixed
`singularity_dir` value, which the migration copies unexpanded into
`apptainer_dir`.) -/
def invChk (fs : FS) (c : Configuration) : Bool :=
  c.singularity_dir.isNone
  && (expanduser fs.home c.grdc_location == c.grdc_location)
  && (expanduser fs.home c.apptainer_dir == c.apptainer_dir)
  && (expanduser fs.home c.output_dir == c.output_dir)
  && (expanduser fs.home c.parameterset_dir == c.parameterset_dir)
  && (match c.ewatercycle_config with
      | none => true
      | some f => (expanduser fs.home f == f) && fs.isFile f)
  && c.parameter_sets.all fun kp =>
       kp.2.name == kp.1 && isAbsPath kp.2.directory && isAbsPath kp.2.config
         && fs.pathExists kp.2.directory && fs.pathExists kp.2.config

/-- A small filesystem with a dot directory, a data directory, a home
subdirectory and one YAML file. -/
def fsMix : FS := ⟨"/h", "/w", [".", "/d", "/h/dir"], ["/f.yaml"], []⟩

/-- An empty filesystem. -/
def fsTrivial : FS := ⟨"/h", "/", [], [], []⟩

/-- A filesystem with a directory literally named `~` holding `x` (so the
relative path `~/x` exists as a directory), while `/h/x` does not exist. -/
def fsTilde : FS := ⟨"/h", "/", [".", "~/x"], [], []⟩

/-- Like `fsTilde`, but the expanded location `/h/x` also exists. -/
def fsTilde2 : FS := ⟨"/h", "/", [".", "~/x", "/h/x"], [], []⟩

/-- A filesystem where the user-level config path exists as a directory. -/
def fsDirConfig : FS := ⟨"/h", "/", ["/h/.config/ewatercycle/ewatercycle.yaml"], [], []⟩

/-- A filesystem where both well-known config paths exist as files. -/
def fsBothFiles : FS :=
  ⟨"/hh", "/", [], ["/hh/.config/ewatercycle/ewatercycle.yaml", "/etc/ewatercycle.yaml"], []⟩

/-- A filesystem whose only entry is a directory at `/cfgdir`. -/
def fsDirOnly : FS := ⟨"/h", "/", ["/cfgdir"], [], []⟩

/-- A filesystem for the parameter-set scenario: the root `/p`, the
sub-directory `rel/a` and its config file exist; `rel/b` does not. -/
def fsPsets : FS := ⟨"/h", "/", [".", "/p", "/p/rel/a"], ["/p/rel/a/cfg.yaml"], []⟩

/-- A filesystem with an expanded home subdirectory `/h/dir` but no literal
`~/dir` entry. -/
def fsHomeDir : FS := ⟨"/h", "/", [".", "/h/dir"], [], []⟩

deriving instance DecidableEq for Except

theorem exceptBind_ok {ε α β : Type} (a : α) (f : α → Except ε β) :
    (Except.ok a : Except ε α) >>= f = f a := rfl

theorem exceptBind_err {ε α β : Type} (e : ε) (f : α → Except ε β) :
    (Except.error e : Except ε α) >>= f = .error e := rfl

theorem data_app (a b : String) : (a ++ b).data = a.data ++ b.data := by
  cases a; cases b; rfl

theorem strStarts_slash_data {s : String} (h : strStarts "/" s = true) :
    ∃ t, s.data = '/' :: t := by
  unfold strStarts at h
  cases hd : s.data with
  | nil => rw [hd] at h; exact absurd h (by decide)
  | cons b bs =>
    rw [hd] at h
    have hb : ('/' == b) = true := by
      by_contra hne
      have : ('/' == b) = false := by
        cases hc : ('/' == b) <;> simp_all
      rw [show ("/" : String).data = ['/'] from rfl] at h
      simp [listStarts, this] at h
    have : b = '/' := (beq_iff_eq.mp hb).symm
    exact ⟨bs, by rw [this]⟩

theorem data_slash_not_tilde {s : String} {t : List Char} (h : s.data = '/' :: t) :
    strStarts "~" s = false := by
  unfold strStarts
  rw [h, show ("~" : String).data = ['~'] from rfl]
  simp [listStarts]

theorem strStarts_tilde_of_tildeSlash {s : String} (h : strStarts "~/" s = true) :
    strStarts "~" s = true := by
  unfold strStarts at h ⊢
  rw [show ("~/" : String).data = ['~', '/'] from rfl] at h
  rw [show ("~" : String).data = ['~'] from rfl]
  cases hd : s.data with
  | nil => rw [hd] at h; exact absurd h (by decide)
  | cons b bs =>
    rw [hd] at h
    simp [listStarts] at h ⊢
    exact h.1

theorem ne_tilde_of_not_tilde {s : String} (h : strStarts "~" s = false) : s ≠ "~" := by
  intro he
  subst he
  exact absurd h (by decide)

theorem expanduser_eq_self {home s : String} (h : strStarts "~" s = false) :
    expanduser home s = s := by
  unfold expanduser
  rw [if_neg (ne_tilde_of_not_tilde h), if_neg]
  intro h2
  rw [strStarts_tilde_of_tildeSlash h2] at h
  exact absurd h (by decide)

theorem strStarts_slash_append (a b : String) (h : strStarts "/" a = true) :
    strStarts "/" (a ++ b) = true := by
  obtain ⟨t, ht⟩ := strStarts_slash_data h
  unfold strStarts
  rw [data_app, ht, show ("/" : String).data = ['/'] from rfl]
  simp [listStarts]

theorem expanduser_slash_output {home s : String} (hh : strStarts "/" home = true) :
    strStarts "~" (expanduser home s) = false ∨ expanduser home s = s := by
  unfold expanduser
  split
  · obtain ⟨t, ht⟩ := strStarts_slash_data hh
    exact Or.inl (data_slash_not_tilde ht)
  · split
    · left
      obtain ⟨t, ht⟩ := strStarts_slash_data (strStarts_slash_append home (s.drop 1) hh)
      exact data_slash_not_tilde ht
    · exact Or.inr rfl

theorem expanduser_idem (home s : String) (hh : strStarts "/" home = true) :
    expanduser home (expanduser home s) = expanduser home s := by
  rcases expanduser_slash_output (s := s) hh with h | h
  · exact expanduser_eq_self h
  · rw [h]
    conv_rhs => rw [← h]

theorem isAbsPath_not_tilde {p : String} (h : isAbsPath p = true) :
    strStarts "~" p = false := by
  obtain ⟨t, ht⟩ := strStarts_slash_data h
  exact data_slash_not_tilde ht

theorem joinPath_abs (root p : String) (h : isAbsPath p = true) :
    joinPath root p = p := by
  unfold joinPath; rw [if_pos h]

theorem resolveCwd_abs (cwd p : String) (h : isAbsPath p = true) :
    resolveCwd cwd p = p := by
  unfold resolveCwd; rw [if_pos h]

theorem resolveCwd_starts (cwd p : String) (h : strStarts "/" cwd = true) :
    isAbsPath (resolveCwd cwd p) = true := by
  unfold resolveCwd
  split
  · assumption
  · unfold isAbsPath
    exact strStarts_slash_append (cwd ++ "/") p (strStarts_slash_append cwd "/" h)

theorem pathExists_of_isDir {fs : FS} {p : String} (h : fs.isDir p = true) :
    fs.pathExists p = true := by
  unfold FS.pathExists
  unfold FS.isDir at h
  rw [h]
  rfl

theorem pathExists_of_isFile {fs : FS} {p : String} (h : fs.isFile p = true) :
    fs.pathExists p = true := by
  unfold FS.pathExists
  unfold FS.isFile at h
  rw [h]
  simp

theorem engine_roundtrip (loc : String) (e : ContainerEngine) :
    checkEngineField loc (.str (engineToString e)) = .ok e := by
  cases e <;> rfl

theorem promote_dump (l : List (String × ParameterSet)) :
    (l.map fun kp => (kp.1, RawPS.mapping kp.2.name kp.2.directory kp.2.config)).map
      (fun kp => (kp.1, promotePS kp.2)) = l := by
  induction l with
  | nil => rfl
  | cons kp rest ih =>
    simp only [List.map_cons, ih]
    rfl

theorem promote_already (l : List (String × ParameterSet)) :
    (l.map fun kp => (kp.1, RawPS.already kp.2)).map
      (fun kp => (kp.1, promotePS kp.2)) = l := by
  induction l with
  | nil => rfl
  | cons kp rest ih =>
    simp only [List.map_cons, ih]
    rfl

theorem migrate_none {c : Configuration} (h : c.singularity_dir = none) :
    migrate c = (c, []) := by
  unfold migrate
  rw [h]

theorem migrate_fst_sing (c : Configuration) :
    (migrate c).1.singularity_dir = none := by
  unfold migrate
  cases h : c.singularity_dir with
  | none => exact h
  | some d => rfl

theorem migrate_keeps (c : Configuration) :
    (migrate c).1.grdc_location = c.grdc_location ∧
    (migrate c).1.container_engine = c.container_engine ∧
    (migrate c).1.output_dir = c.output_dir ∧
    (migrate c).1.parameterset_dir = c.parameterset_dir ∧
    (migrate c).1.parameter_sets = c.parameter_sets ∧
    (migrate c).1.ewatercycle_config = c.ewatercycle_config := by
  unfold migrate
  cases h : c.singularity_dir <;> exact ⟨rfl, rfl, rfl, rfl, rfl, rfl⟩

theorem make_absolute_name (fs : FS) (root : String) (ps : ParameterSet) :
    (ParameterSet.make_absolute fs root ps).name = ps.name := rfl

theorem make_absolute_fixed (fs : FS) (root : String) (ps : ParameterSet)
    (hd : isAbsPath ps.directory = true) (hc : isAbsPath ps.config = true) :
    ParameterSet.make_absolute fs root ps = ps := by
  unfold ParameterSet.make_absolute
  rw [expanduser_eq_self (isAbsPath_not_tilde hd),
      expanduser_eq_self (isAbsPath_not_tilde hc),
      joinPath_abs _ _ hd, joinPath_abs _ _ hc,
      resolveCwd_abs _ _ hd, resolveCwd_abs _ _ hc]

theorem resolveEntries_fixed (fs : FS) (root : String)
    (l : List (String × ParameterSet))
    (h : ∀ kp ∈ l, kp.2.name = kp.1 ∧ isAbsPath kp.2.directory = true ∧
          isAbsPath kp.2.config = true ∧ fs.pathExists kp.2.directory = true ∧
          fs.pathExists kp.2.config = true) :
    resolveEntries fs root l = .ok l := by
  induction l with
  | nil => rfl
  | cons kp rest ih =>
    obtain ⟨k, ps⟩ := kp
    obtain ⟨hn, hd, hc, hde, hce⟩ := h (k, ps) (List.mem_cons_self _ _)
    dsimp only at hn hd hc hde hce
    have hps : ({ ps with name := k } : ParameterSet) = ps := by
      cases ps
      simp_all
    unfold resolveEntries
    dsimp only
    rw [hps, make_absolute_fixed fs root ps hd hc]
    rw [if_neg (show ¬ (fs.pathExists ps.directory = false) by rw [hde]; simp)]
    rw [if_neg (show ¬ (fs.pathExists ps.config = false) by rw [hce]; simp)]
    rw [ih (fun kp hm => h kp (List.mem_cons_of_mem _ hm))]
    rfl

theorem resolveEntries_ok_inv {fs : FS} {root : String}
    {l l' : List (String × ParameterSet)} (hcwd : strStarts "/" fs.cwd = true)
    (h : resolveEntries fs root l = .ok l') :
    ∀ kp ∈ l', kp.2.name = kp.1 ∧ isAbsPath kp.2.directory = true ∧
      isAbsPath kp.2.config = true ∧ fs.pathExists kp.2.directory = true ∧
      fs.pathExists kp.2.config = true := by
  induction l generalizing l' with
  | nil =>
    unfold resolveEntries at h
    injection h with h
    subst h
    intro kp hm
    exact absurd hm (List.not_mem_nil _)
  | cons hd0 rest ih =>
    obtain ⟨k, ps⟩ := hd0
    unfold resolveEntries at h
    by_cases h1 : fs.pathExists (ParameterSet.make_absolute fs root { ps with name := k }).directory = false
    · rw [if_pos h1] at h
      exact absurd h (by simp)
    · rw [if_neg h1] at h
      by_cases h2 : fs.pathExists (ParameterSet.make_absolute fs root { ps with name := k }).config = false
      · rw [if_pos h2] at h
        exact absurd h (by simp)
      · rw [if_neg h2] at h
        cases hr : resolveEntries fs root rest with
        | error e => rw [hr] at h; exact absurd h (by simp [Except.map])
        | ok lr =>
          rw [hr] at h
          simp only [Except.map] at h
          injection h with h
          subst h
          intro kp hm
          rcases List.mem_cons.mp hm with he | hm2
          · subst he
            refine ⟨rfl, ?_, ?_, ?_, ?_⟩
            · exact resolveCwd_starts _ _ hcwd
            · exact resolveCwd_starts _ _ hcwd
            · simpa using h1
            · simpa using h2
          · exact ih hr kp hm2

theorem rootPsets_ok_inv {fs : FS} {c c' : Configuration}
    (h : rootPsets fs c = .ok c') :
    ∃ l, resolveEntries fs c.parameterset_dir c.parameter_sets = .ok l ∧
      c' = { c with parameter_sets := l } := by
  unfold rootPsets at h
  cases hr : resolveEntries fs c.parameterset_dir c.parameter_sets with
  | error e => rw [hr] at h; exact absurd h (by simp [Except.map])
  | ok l =>
    rw [hr] at h
    simp only [Except.map] at h
    injection h with h
    exact ⟨l, rfl, h.symm⟩

theorem runRoot_ok_inv {fs : FS} {c c' : Configuration} {ws : List String}
    (h : runRootValidators fs c = .ok (c', ws)) :
    ∃ l, resolveEntries fs (migrate c).1.parameterset_dir (migrate c).1.parameter_sets = .ok l ∧
      c' = { (migrate c).1 with parameter_sets := l } ∧ ws = (migrate c).2 := by
  unfold runRootValidators at h
  cases hr : rootPsets fs (migrate c).1 with
  | error e =>
    rw [hr] at h
    exact absurd h (by simp [Except.map])
  | ok c2 =>
    rw [hr] at h
    simp only [Except.map] at h
    obtain ⟨l, hl, he⟩ := rootPsets_ok_inv hr
    injection h with h
    have h1 : c2 = c' := congrArg Prod.fst h
    have h2 : (migrate c).2 = ws := congrArg Prod.snd h
    exact ⟨l, hl, by rw [← h1, he], h2.symm⟩

theorem runRoot_sing {fs : FS} {c c' : Configuration} {ws : List String}
    (h : runRootValidators fs c = .ok (c', ws)) : c'.singularity_dir = none := by
  obtain ⟨l, _, he, _⟩ := runRoot_ok_inv h
  rw [he]
  exact migrate_fst_sing c

theorem runRoot_clean {fs : FS} {c : Configuration}
    (hs : c.singularity_dir = none)
    (hps : resolveEntries fs c.parameterset_dir c.parameter_sets = .ok c.parameter_sets) :
    runRootValidators fs c = .ok (c, []) := by
  unfold runRootValidators rootPsets
  rw [migrate_none hs]
  simp only [hps, Except.map]

theorem dirCheck_ok_inv {fs : FS} {loc p q : String}
    (h : dirCheck fs loc p = .ok q) : q = p ∧ fs.isDir p = true := by
  unfold dirCheck at h
  by_cases h1 : fs.pathExists p = false
  · rw [if_pos h1] at h
    exact absurd h (by simp)
  · rw [if_neg h1] at h
    by_cases h2 : fs.isDir p = true
    · rw [if_pos h2] at h
      injection h with h
      exact ⟨h.symm, h2⟩
    · rw [if_neg h2] at h
      exact absurd h (by simp)

theorem dirCheck_ok_build {fs : FS} {p : String} (loc : String)
    (h : fs.isDir p = true) : dirCheck fs loc p = .ok p := by
  unfold dirCheck
  rw [if_neg (show ¬ (fs.pathExists p = false) by rw [pathExists_of_isDir h]; simp),
      if_pos h]

theorem fileCheck_ok_inv {fs : FS} {loc p q : String}
    (h : fileCheck fs loc p = .ok q) : q = p ∧ fs.isFile p = true := by
  unfold fileCheck at h
  by_cases h1 : fs.pathExists p = false
  · rw [if_pos h1] at h
    exact absurd h (by simp)
  · rw [if_neg h1] at h
    by_cases h2 : fs.isFile p = true
    · rw [if_pos h2] at h
      injection h with h
      exact ⟨h.symm, h2⟩
    · rw [if_neg h2] at h
      exact absurd h (by simp)

theorem fileCheck_ok_build {fs : FS} {p : String} (loc : String)
    (h : fs.isFile p = true) : fileCheck fs loc p = .ok p := by
  unfold fileCheck
  rw [if_neg (show ¬ (fs.pathExists p = false) by rw [pathExists_of_isFile h]; simp),
      if_pos h]

theorem checkDirField_ok_inv {fs : FS} {loc : String} {v : RawValue} {p : String}
    (h : checkDirField fs loc true v = .ok p) :
    ∃ s, v = .str s ∧ p = expanduser fs.home s ∧ fs.isDir p = true := by
  cases v with
  | str s =>
    replace h : dirCheck fs loc (expanduser fs.home s) = .ok p := h
    obtain ⟨hq, hd⟩ := dirCheck_ok_inv h
    exact ⟨s, rfl, hq, by rw [hq]; exact hd⟩
  | nullv => exact absurd h (by simp [checkDirField])
  | psets l => exact absurd h (by simp [checkDirField])

theorem checkOptDirField_ok_inv {fs : FS} {loc : String} {v : RawValue}
    {p : Option String} (h : checkOptDirField fs loc false v = .ok p) :
    (v = .nullv ∧ p = none) ∨
    ∃ s, v = .str s ∧ p = some s ∧ fs.isDir s = true := by
  cases v with
  | str s =>
    replace h : Except.map some (dirCheck fs loc s) = .ok p := h
    cases hd : dirCheck fs loc s with
    | error e => rw [hd] at h; exact absurd h (by simp [Except.map])
    | ok q =>
      rw [hd] at h
      simp only [Except.map] at h
      obtain ⟨hq, hdir⟩ := dirCheck_ok_inv hd
      injection h with h
      exact Or.inr ⟨s, rfl, by rw [← h, hq], hdir⟩
  | nullv =>
    simp only [checkOptDirField] at h
    injection h with h
    exact Or.inl ⟨rfl, h.symm⟩
  | psets l => exact absurd h (by simp [checkOptDirField])

theorem checkOptFileField_ok_inv {fs : FS} {loc : String} {v : RawValue}
    {p : Option String} (h : checkOptFileField fs loc v = .ok p) :
    (v = .nullv ∧ p = none) ∨
    ∃ s, v = .str s ∧ p = some (expanduser fs.home s) ∧
      fs.isFile (expanduser fs.home s) = true := by
  cases v with
  | str s =>
    replace h : Except.map some (fileCheck fs loc (expanduser fs.home s)) = .ok p := h
    cases hd : fileCheck fs loc (expanduser fs.home s) with
    | error e => rw [hd] at h; exact absurd h (by simp [Except.map])
    | ok q =>
      rw [hd] at h
      simp only [Except.map] at h
      obtain ⟨hq, hf⟩ := fileCheck_ok_inv hd
      injection h with h
      exact Or.inr ⟨s, rfl, by rw [← h, hq], hf⟩
  | nullv =>
    simp only [checkOptFileField] at h
    injection h with h
    exact Or.inl ⟨rfl, h.symm⟩
  | psets l => exact absurd h (by simp [checkOptFileField])

theorem vField_ok_inv {α : Type} {o : Option RawValue} {dflt : α}
    {f : RawValue → Except (List FieldErr) α} {v : α}
    (h : vField o dflt f = .ok v) :
    (o = none ∧ v = dflt) ∨ ∃ rv, o = some rv ∧ f rv = .ok v := by
  cases o with
  | none =>
    simp only [vField] at h
    injection h with h
    exact Or.inl ⟨rfl, h.symm⟩
  | some rv => exact Or.inr ⟨rv, rfl, h⟩

theorem fieldStage_ok_inv {fs : FS} {raw : RawConfig} {c : Configuration}
    (h : fieldStage fs raw = .ok c) :
    vField raw.grdc_location "." (checkDirField fs "grdc_location" true) = .ok c.grdc_location ∧
    vField raw.container_engine .docker (checkEngineField "container_engine") = .ok c.container_engine ∧
    vField raw.apptainer_dir "." (checkDirField fs "apptainer_dir" true) = .ok c.apptainer_dir ∧
    vField raw.singularity_dir none (checkOptDirField fs "singularity_dir" false) = .ok c.singularity_dir ∧
    vField raw.output_dir "." (checkDirField fs "output_dir" true) = .ok c.output_dir ∧
    vField raw.parameterset_dir "." (checkDirField fs "parameterset_dir" true) = .ok c.parameterset_dir ∧
    vField raw.parameter_sets [] (checkPsetsField "parameter_sets") = .ok c.parameter_sets ∧
    vField raw.ewatercycle_config none (checkOptFileField fs "ewatercycle_config") = .ok c.ewatercycle_config ∧
    vExtras raw.extra = .ok () := by
  unfold fieldStage at h
  cases h1 : vField raw.grdc_location "." (checkDirField fs "grdc_location" true) with
  | error e => rw [h1] at h; exact absurd h (by simp)
  | ok a =>
  rw [h1] at h
  cases h2 : vField raw.container_engine .docker (checkEngineField "container_engine") with
  | error e => rw [h2] at h; exact absurd h (by simp)
  | ok b =>
  rw [h2] at h
  cases h3 : vField raw.apptainer_dir "." (checkDirField fs "apptainer_dir" true) with
  | error e => rw [h3] at h; exact absurd h (by simp)
  | ok cc =>
  rw [h3] at h
  cases h4 : vField raw.singularity_dir none (checkOptDirField fs "singularity_dir" false) with
  | error e => rw [h4] at h; exact absurd h (by simp)
  | ok d =>
  rw [h4] at h
  cases h5 : vField raw.output_dir "." (checkDirField fs "output_dir" true) with
  | error e => rw [h5] at h; exact absurd h (by simp)
  | ok e5 =>
  rw [h5] at h
  cases h6 : vField raw.parameterset_dir "." (checkDirField fs "parameterset_dir" true) with
  | error e => rw [h6] at h; exact absurd h (by simp)
  | ok f6 =>
  rw [h6] at h
  cases h7 : vField raw.parameter_sets [] (checkPsetsField "parameter_sets") with
  | error e => rw [h7] at h; exact absurd h (by simp)
  | ok g7 =>
  rw [h7] at h
  cases h8 : vField raw.ewatercycle_config none (checkOptFileField fs "ewatercycle_config") with
  | error e => rw [h8] at h; exact absurd h (by simp)
  | ok h8v =>
  rw [h8] at h
  cases h9 : vExtras raw.extra with
  | error e => rw [h9] at h; exact absurd h (by simp)
  | ok u =>
  rw [h9] at h
  injection h with h
  subst h
  exact ⟨rfl, rfl, rfl, rfl, rfl, rfl, rfl, rfl, rfl⟩

theorem fieldStage_build {fs : FS} {raw : RawConfig} {a : String}
    {b : ContainerEngine} {cc : String} {d : Option String} {e f : String}
    {g : List (String × ParameterSet)} {h8 : Option String}
    (h1 : vField raw.grdc_location "." (checkDirField fs "grdc_location" true) = .ok a)
    (h2 : vField raw.container_engine .docker (checkEngineField "container_engine") = .ok b)
    (h3 : vField raw.apptainer_dir "." (checkDirField fs "apptainer_dir" true) = .ok cc)
    (h4 : vField raw.singularity_dir none (checkOptDirField fs "singularity_dir" false) = .ok d)
    (h5 : vField raw.output_dir "." (checkDirField fs "output_dir" true) = .ok e)
    (h6 : vField raw.parameterset_dir "." (checkDirField fs "parameterset_dir" true) = .ok f)
    (h7 : vField raw.parameter_sets [] (checkPsetsField "parameter_sets") = .ok g)
    (h8e : vField raw.ewatercycle_config none (checkOptFileField fs "ewatercycle_config") = .ok h8)
    (h9 : vExtras raw.extra = .ok ()) :
    fieldStage fs raw = .ok ⟨a, b, cc, d, e, f, g, h8⟩ := by
  unfold fieldStage
  rw [h1, h2, h3, h4, h5, h6, h7, h8e, h9]

theorem construct_ok_inv {fs : FS} {raw : RawConfig} {c : Configuration}
    {ws : List String} (h : construct fs raw = .ok (c, ws)) :
    ∃ c0, fieldStage fs raw = .ok c0 ∧ runRootValidators fs c0 = .ok (c, ws) := by
  unfold construct at h
  cases hf : fieldStage fs raw with
  | error e =>
    rw [hf] at h
    dsimp only at h
    cases h6 : vField raw.parameterset_dir "." (checkDirField fs "parameterset_dir" true) with
    | error e6 => rw [h6] at h; exact absurd h (by simp)
    | ok root =>
      rw [h6] at h
      dsimp only at h
      cases hre : resolveEntries fs root
          (psetsOrEmpty (vField raw.parameter_sets [] (checkPsetsField "parameter_sets"))) with
      | error rootErrs => rw [hre] at h; exact absurd h (by simp)
      | ok l => rw [hre] at h; exact absurd h (by simp)
  | ok c0 =>
    rw [hf] at h
    dsimp only at h
    refine ⟨c0, rfl, ?_⟩
    cases hr : runRootValidators fs c0 with
    | error errs => rw [hr] at h; exact absurd h (by simp)
    | ok cw =>
      rw [hr] at h
      replace h : (Except.ok cw :
          Except ConstructFailure (Configuration × List String)) = .ok (c, ws) := h
      injection h with h
      rw [← h]

theorem construct_build {fs : FS} {raw : RawConfig} {c0 c : Configuration}
    {ws : List String} (hf : fieldStage fs raw = .ok c0)
    (hr : runRootValidators fs c0 = .ok (c, ws)) :
    construct fs raw = .ok (c, ws) := by
  unfold construct
  rw [hf]
  dsimp only
  rw [hr]

theorem construct_ok_sing {fs : FS} {raw : RawConfig} {c : Configuration}
    {ws : List String} (h : construct fs raw = .ok (c, ws)) :
    c.singularity_dir = none := by
  obtain ⟨c0, _, hr⟩ := construct_ok_inv h
  exact runRoot_sing hr

theorem setField_ok_sing {fs : FS} {c : Configuration} {f : CfgField}
    {v : RawValue} {c' : Configuration} {ws : List String}
    (h : setField fs c f v = .ok (c', ws)) : c'.singularity_dir = none := by
  cases f <;>
    (simp only [setField] at h
     split at h
     · exact absurd h (by simp)
     · exact runRoot_sing h)

theorem setattrRaw_ok_sing {fs : FS} {c : Configuration} {name : String}
    {v : RawValue} {c' : Configuration} {ws : List String}
    (h : setattrRaw fs c name v = .ok (c', ws)) : c'.singularity_dir = none := by
  unfold setattrRaw at h
  split_ifs at h <;> exact setField_ok_sing h

theorem vField_some {α : Type} (v : RawValue) (dflt : α)
    (f : RawValue → Except (List FieldErr) α) :
    vField (some v) dflt f = f v := rfl

theorem vField_none {α : Type} (dflt : α)
    (f : RawValue → Except (List FieldErr) α) :
    vField none dflt f = .ok dflt := rfl

theorem checkDirField_build {fs : FS} {s : String} (loc : String)
    (h : fs.isDir (expanduser fs.home s) = true) :
    checkDirField fs loc true (.str s) = .ok (expanduser fs.home s) := by
  show dirCheck fs loc (expanduser fs.home s) = .ok (expanduser fs.home s)
  exact dirCheck_ok_build loc h

theorem checkOptFileField_build {fs : FS} {s : String} (loc : String)
    (h : fs.isFile (expanduser fs.home s) = true) :
    checkOptFileField fs loc (.str s) = .ok (some (expanduser fs.home s)) := by
  show Except.map some (fileCheck fs loc (expanduser fs.home s)) = _
  rw [fileCheck_ok_build loc h]
  rfl

theorem setField_grdc_ok_inv {fs : FS} {c : Configuration} {v : RawValue}
    {c' : Configuration} {ws : List String}
    (h : setField fs c .grdc_location v = .ok (c', ws)) :
    ∃ p, checkDirField fs "grdc_location" true v = .ok p ∧
      runRootValidators fs { c with grdc_location := p } = .ok (c', ws) := by
  simp only [setField] at h
  cases hc : checkDirField fs "grdc_location" true v with
  | error e => rw [hc] at h; exact absurd h (by simp)
  | ok p => rw [hc] at h; exact ⟨p, rfl, h⟩

theorem setField_engine_ok_inv {fs : FS} {c : Configuration} {v : RawValue}
    {c' : Configuration} {ws : List String}
    (h : setField fs c .container_engine v = .ok (c', ws)) :
    ∃ en, checkEngineField "container_engine" v = .ok en ∧
      runRootValidators fs { c with container_engine := en } = .ok (c', ws) := by
  simp only [setField] at h
  cases hc : checkEngineField "container_engine" v with
  | error e => rw [hc] at h; exact absurd h (by simp)
  | ok en => rw [hc] at h; exact ⟨en, rfl, h⟩

theorem setField_apptainer_ok_inv {fs : FS} {c : Configuration} {v : RawValue}
    {c' : Configuration} {ws : List String}
    (h : setField fs c .apptainer_dir v = .ok (c', ws)) :
    ∃ p, checkDirField fs "apptainer_dir" true v = .ok p ∧
      runRootValidators fs { c with apptainer_dir := p } = .ok (c', ws) := by
  simp only [setField] at h
  cases hc : checkDirField fs "apptainer_dir" true v with
  | error e => rw [hc] at h; exact absurd h (by simp)
  | ok p => rw [hc] at h; exact ⟨p, rfl, h⟩

theorem setField_sing_ok_inv {fs : FS} {c : Configuration} {v : RawValue}
    {c' : Configuration} {ws : List String}
    (h : setField fs c .singularity_dir v = .ok (c', ws)) :
    ∃ p, checkOptDirField fs "singularity_dir" false v = .ok p ∧
      runRootValidators fs { c with singularity_dir := p } = .ok (c', ws) := by
  simp only [setField] at h
  cases hc : checkOptDirField fs "singularity_dir" false v with
  | error e => rw [hc] at h; exact absurd h (by simp)
  | ok p => rw [hc] at h; exact ⟨p, rfl, h⟩

theorem setField_output_ok_inv {fs : FS} {c : Configuration} {v : RawValue}
    {c' : Configuration} {ws : List String}
    (h : setField fs c .output_dir v = .ok (c', ws)) :
    ∃ p, checkDirField fs "output_dir" true v = .ok p ∧
      runRootValidators fs { c with output_dir := p } = .ok (c', ws) := by
  simp only [setField] at h
  cases hc : checkDirField fs "output_dir" true v with
  | error e => rw [hc] at h; exact absurd h (by simp)
  | ok p => rw [hc] at h; exact ⟨p, rfl, h⟩

theorem setField_pdir_ok_inv {fs : FS} {c : Configuration} {v : RawValue}
    {c' : Configuration} {ws : List String}
    (h : setField fs c .parameterset_dir v = .ok (c', ws)) :
    ∃ p, checkDirField fs "parameterset_dir" true v = .ok p ∧
      runRootValidators fs { c with parameterset_dir := p } = .ok (c', ws) := by
  simp only [setField] at h
  cases hc : checkDirField fs "parameterset_dir" true v with
  | error e => rw [hc] at h; exact absurd h (by simp)
  | ok p => rw [hc] at h; exact ⟨p, rfl, h⟩

theorem setField_psets_ok_inv {fs : FS} {c : Configuration} {v : RawValue}
    {c' : Configuration} {ws : List String}
    (h : setField fs c .parameter_sets v = .ok (c', ws)) :
    ∃ l, checkPsetsField "parameter_sets" v = .ok l ∧
      runRootValidators fs { c with parameter_sets := l } = .ok (c', ws) := by
  simp only [setField] at h
  cases hc : checkPsetsField "parameter_sets" v with
  | error e => rw [hc] at h; exact absurd h (by simp)
  | ok l => rw [hc] at h; exact ⟨l, rfl, h⟩

theorem setField_ewc_ok_inv {fs : FS} {c : Configuration} {v : RawValue}
    {c' : Configuration} {ws : List String}
    (h : setField fs c .ewatercycle_config v = .ok (c', ws)) :
    ∃ p, checkOptFileField fs "ewatercycle_config" v = .ok p ∧
      runRootValidators fs { c with ewatercycle_config := p } = .ok (c', ws) := by
  simp only [setField] at h
  cases hc : checkOptFileField fs "ewatercycle_config" v with
  | error e => rw [hc] at h; exact absurd h (by simp)
  | ok p => rw [hc] at h; exact ⟨p, rfl, h⟩

theorem fieldStage_extra_err {fs : FS} {raw : RawConfig} {k : String}
    (hk : k ∈ raw.extra) :
    ∃ errs, fieldStage fs raw = .error errs ∧
      (⟨k, "extra fields not permitted"⟩ : FieldErr) ∈ errs := by
  have hx : vExtras raw.extra =
      .error (raw.extra.map fun k => (⟨k, "extra fields not permitted"⟩ : FieldErr)) := by
    unfold vExtras
    rw [if_neg]
    intro he
    have : raw.extra = [] := by
      cases hE : raw.extra with
      | nil => rfl
      | cons x xs => rw [hE] at he; exact absurd he (by simp)
    rw [this] at hk
    exact absurd hk (List.not_mem_nil _)
  have hmem : (⟨k, "extra fields not permitted"⟩ : FieldErr) ∈ errsOf (vExtras raw.extra) := by
    rw [hx]
    exact List.mem_map_of_mem _ hk
  unfold fieldStage
  cases h1 : vField raw.grdc_location "." (checkDirField fs "grdc_location" true) with
  | error e1 => exact ⟨_, rfl, List.mem_append_right _ hmem⟩
  | ok a =>
  cases h2 : vField raw.container_engine .docker (checkEngineField "container_engine") with
  | error e2 => exact ⟨_, rfl, List.mem_append_right _ hmem⟩
  | ok b =>
  cases h3 : vField raw.apptainer_dir "." (checkDirField fs "apptainer_dir" true) with
  | error e3 => exact ⟨_, rfl, List.mem_append_right _ hmem⟩
  | ok c =>
  cases h4 : vField raw.singularity_dir none (checkOptDirField fs "singularity_dir" false) with
  | error e4 => exact ⟨_, rfl, List.mem_append_right _ hmem⟩
  | ok d =>
  cases h5 : vField raw.output_dir "." (checkDirField fs "output_dir" true) with
  | error e5 => exact ⟨_, rfl, List.mem_append_right _ hmem⟩
  | ok e =>
  cases h6 : vField raw.parameterset_dir "." (checkDirField fs "parameterset_dir" true) with
  | error e6 => exact ⟨_, rfl, List.mem_append_right _ hmem⟩
  | ok f =>
  cases h7 : vField raw.parameter_sets [] (checkPsetsField "parameter_sets") with
  | error e7 => exact ⟨_, rfl, List.mem_append_right _ hmem⟩
  | ok g =>
  cases h8 : vField raw.ewatercycle_config none (checkOptFileField fs "ewatercycle_config") with
  | error e8 => exact ⟨_, rfl, List.mem_append_right _ hmem⟩
  | ok h0 =>
  rw [hx]
  refine ⟨_, rfl, List.mem_append_right _ ?_⟩
  rw [hx] at hmem
  exact hmem

theorem construct_extra_validation {fs : FS} {raw : RawConfig} {k r : String}
    (hk : k ∈ raw.extra)
    (h6 : vField raw.parameterset_dir "." (checkDirField fs "parameterset_dir" true) = .ok r) :
    ∃ errs, construct fs raw = .error (.validation errs) ∧
      (⟨k, "extra fields not permitted"⟩ : FieldErr) ∈ errs := by
  obtain ⟨errs, he, hm⟩ := @fieldStage_extra_err fs raw k hk
  unfold construct
  rw [he]
  dsimp only
  rw [h6]
  dsimp only
  cases hre : resolveEntries fs r
      (psetsOrEmpty (vField raw.parameter_sets [] (checkPsetsField "parameter_sets"))) with
  | error rootErrs => exact ⟨errs ++ rootErrs, rfl, List.mem_append_left _ hm⟩
  | ok l => exact ⟨errs, rfl, hm⟩

theorem construct_keyError {fs : FS} {raw : RawConfig} {e : List FieldErr}
    (h6 : vField raw.parameterset_dir "." (checkDirField fs "parameterset_dir" true) = .error e) :
    construct fs raw = .error (.keyError "parameterset_dir") := by
  unfold construct
  cases hf : fieldStage fs raw with
  | ok c0 =>
    exfalso
    have h6o := (fieldStage_ok_inv hf).2.2.2.2.2.1
    rw [h6] at h6o
    exact absurd h6o (by simp)
  | error errs =>
    dsimp only
    rw [h6]

/-- Claim C5 (amended): constructing a `Configuration` with a keyword
outside the declared field set fails with a validation error containing an
`extra fields not permitted` entry for that key, provided the
`parameterset_dir` key is present in `values` (absent or valid input for
that field); when a supplied `parameterset_dir` fails its own field
validation, the parameter-set root validator instead crashes with an
uncaught `KeyError` and the unknown-field report is lost.  Assigning an
attribute name outside the declared field set always fails with a
validation error naming the field.  In no case is the unknown field
silently dropped. -/
theorem unknown_field_rejection (fs : FS) (raw : RawConfig) (k : String)
    (c : Configuration) (name : String) (v : RawValue) (r : String)
    (e : List FieldErr) :
    (k ∈ raw.extra →
      vField raw.parameterset_dir "." (checkDirField fs "parameterset_dir" true) = .ok r →
      ∃ errs, construct fs raw = .error (.validation errs) ∧
        (⟨k, "extra fields not permitted"⟩ : FieldErr) ∈ errs) ∧
    (vField raw.parameterset_dir "." (checkDirField fs "parameterset_dir" true) = .error e →
      construct fs raw = .error (.keyError "parameterset_dir")) ∧
    (name ∉ fieldNames →
      setattrRaw fs c name v = .error [⟨name, "extra fields not permitted"⟩]) := by
  refine ⟨fun hk h6 => construct_extra_validation hk h6,
          fun h6 => construct_keyError h6, ?_⟩
  intro hn
  have h1 : ¬ (name = "grdc_location") := fun he => hn (by rw [he]; decide)
  have h2 : ¬ (name = "container_engine") := fun he => hn (by rw [he]; decide)
  have h3 : ¬ (name = "apptainer_dir") := fun he => hn (by rw [he]; decide)
  have h4 : ¬ (name = "singularity_dir") := fun he => hn (by rw [he]; decide)
  have h5 : ¬ (name = "output_dir") := fun he => hn (by rw [he]; decide)
  have h6 : ¬ (name = "parameterset_dir") := fun he => hn (by rw [he]; decide)
  have h7 : ¬ (name = "parameter_sets") := fun he => hn (by rw [he]; decide)
  have h8 : ¬ (name = "ewatercycle_config") := fun he => hn (by rw [he]; decide)
  unfold setattrRaw
  rw [if_neg h1, if_neg h2, if_neg h3, if_neg h4, if_neg h5, if_neg h6,
      if_neg h7, if_neg h8]

/-- Counterexample to C5 as stated: with the unknown key
`output_directory` and a `parameterset_dir` value that fails its own field
validation, construction does not fail with a validation error at all —
`prepend_root_to_parameterset_paths` evaluates `values["parameterset_dir"]`
on a `values` dict lacking that key and crashes with an uncaught
`KeyError`, so no `extra fields not permitted` entry for the unknown key
surfaces. -/
theorem unknown_field_keyerror_counterexample :
    "output_directory" ∈ ({ parameterset_dir := some (.str "/nonexistent")
                            extra := ["output_directory"] } : RawConfig).extra ∧
    construct fsTrivial
        { parameterset_dir := some (.str "/nonexistent")
          extra := ["output_directory"] } =
      .error (.keyError "parameterset_dir") := by
  refine ⟨?_, ?_⟩ <;> decide

/-- Witness for C5: the misspelled key `output_directory` is rejected with
a validation error at construction (absent `parameterset_dir`, whose
default keeps the key present) and at assignment; with an invalid
`parameterset_dir` the same unknown key instead ends in the `KeyError`
crash. -/
theorem unknown_field_rejection_witness :
    ("output_directory" ∈ ({ extra := ["output_directory"] } : RawConfig).extra) ∧
    vField ({ extra := ["output_directory"] } : RawConfig).parameterset_dir "."
      (checkDirField fsTrivial "parameterset_dir" true) = .ok "." ∧
    (∃ errs, construct fsTrivial { extra := ["output_directory"] } =
        .error (.validation errs) ∧
      (⟨"output_directory", "extra fields not permitted"⟩ : FieldErr) ∈ errs) ∧
    vField ({ parameterset_dir := some (.str "/nonexistent")
              extra := ["output_directory"] } : RawConfig).parameterset_dir "."
      (checkDirField fsTrivial "parameterset_dir" true) =
      .error [⟨"parameterset_dir",
        "file or directory at path \"/nonexistent\" does not exist"⟩] ∧
    construct fsTrivial
        { parameterset_dir := some (.str "/nonexistent")
          extra := ["output_directory"] } =
      .error (.keyError "parameterset_dir") ∧
    ("output_directory" ∉ fieldNames) ∧
    setattrRaw fsTrivial defaultConfig "output_directory" (.str "/out") =
      .error [⟨"output_directory", "extra fields not permitted"⟩] :=
  ⟨by decide,
   by decide,
   (unknown_field_rejection fsTrivial { extra := ["output_directory"] }
      "output_directory" defaultConfig "output_directory" (.str "/out") "." []).1
     (by decide) (by decide),
   by decide,
   (unknown_field_rejection fsTrivial
      { parameterset_dir := some (.str "/nonexistent")
        extra := ["output_directory"] }
      "output_directory" defaultConfig "output_directory" (.str "/out") "."
      [⟨"parameterset_dir",
        "file or directory at path \"/nonexistent\" does not exist"⟩]).2.1
     (by decide),
   by decide,
   (unknown_field_rejection fsTrivial { extra := ["output_directory"] }
      "output_directory" defaultConfig "output_directory" (.str "/out") "." []).2.2
     (by decide)⟩

/-- Claim C10: every record produced by a successful construction and every
record produced by a successful validated assignment has
`singularity_dir = none`: the deprecation migration clears the field
whenever it is set. -/
theorem singularity_cleared_invariant (fs : FS) (raw : RawConfig)
    (c : Configuration) (ws : List String) (c0 : Configuration) (name : String)
    (v : RawValue) (c' : Configuration) (ws' : List String) :
    (construct fs raw = .ok (c, ws) → c.singularity_dir = none) ∧
    (setattrRaw fs c0 name v = .ok (c', ws') → c'.singularity_dir = none) :=
  ⟨fun h => construct_ok_sing h, fun h => setattrRaw_ok_sing h⟩

/-- Witness for C10: constructing with `singularity_dir = "/d"` and
assigning `singularity_dir = "/d"` both yield records whose
`singularity_dir` is cleared. -/
theorem singularity_cleared_invariant_witness :
    construct fsMix { singularity_dir := some (.str "/d") } =
      .ok ({ defaultConfig with apptainer_dir := "/d" },
        ["singularity_dir field has been deprecated please use apptainer_dir in None"]) ∧
    ({ defaultConfig with apptainer_dir := "/d" } : Configuration).singularity_dir = none ∧
    setattrRaw fsMix defaultConfig "singularity_dir" (.str "/d") =
      .ok ({ defaultConfig with apptainer_dir := "/d" },
        ["singularity_dir field has been deprecated please use apptainer_dir in None"]) ∧
    ({ defaultConfig with apptainer_dir := "/d" } : Configuration).singularity_dir = none :=
  ⟨by decide,
   (singularity_cleared_invariant fsMix { singularity_dir := some (.str "/d") }
      { defaultConfig with apptainer_dir := "/d" }
      ["singularity_dir field has been deprecated please use apptainer_dir in None"]
      defaultConfig "singularity_dir" (.str "/d")
      { defaultConfig with apptainer_dir := "/d" }
      ["singularity_dir field has been deprecated please use apptainer_dir in None"]).1
     (by decide),
   by decide,
   (singularity_cleared_invariant fsMix { singularity_dir := some (.str "/d") }
      { defaultConfig with apptainer_dir := "/d" }
      ["singularity_dir field has been deprecated please use apptainer_dir in None"]
      defaultConfig "singularity_dir" (.str "/d")
      { defaultConfig with apptainer_dir := "/d" }
      ["singularity_dir field has been deprecated please use apptainer_dir in None"]).2
     (by decide)⟩

/-- Claim C4: evaluation at the failing input.  Constructing with
`singularity_dir = "/d"` (an existing directory) and no `apptainer_dir`
migrates the value and emits the deprecation warning, but for an in-memory
construction the warning text ends in `None` (the f-string rendering of the
present-but-`None` `ewatercycle_config` key), not `in-memory object`; a
file-sourced construction names the file as documented. -/
theorem singularity_migration_warning_eval :
    construct fsMix { singularity_dir := some (.str "/d") } =
      .ok ({ defaultConfig with apptainer_dir := "/d" },
        ["singularity_dir field has been deprecated please use apptainer_dir in None"]) ∧
    construct fsMix
      { singularity_dir := some (.str "/d")
        ewatercycle_config := some (.str "/f.yaml") } =
      .ok ({ defaultConfig with
              apptainer_dir := "/d"
              ewatercycle_config := some "/f.yaml" },
        ["singularity_dir field has been deprecated please use apptainer_dir in /f.yaml"]) := by
  constructor
  · decide
  · decide

/-- Claim C3 (amended): source resolution checks the user-level candidate
before the system-level candidate and returns the first one for which
`Path.exists()` holds (whether it is a file or a directory), returning
none when neither exists; in particular, when both config files exist the
user-level one is chosen. -/
theorem source_resolution_order (fs : FS) (xdg : Option String) :
    (fs.pathExists (user_home_config xdg fs.home) = true →
      _find_user_config fs (_SOURCES xdg fs.home) =
        some (user_home_config xdg fs.home)) ∧
    (fs.pathExists (user_home_config xdg fs.home) = false →
      fs.pathExists system_config = true →
      _find_user_config fs (_SOURCES xdg fs.home) = some system_config) ∧
    (fs.pathExists (user_home_config xdg fs.home) = false →
      fs.pathExists system_config = false →
      _find_user_config fs (_SOURCES xdg fs.home) = none) := by
  unfold _find_user_config _SOURCES
  refine ⟨?_, ?_, ?_⟩
  · intro h
    simp [List.find?, h]
  · intro h1 h2
    simp [List.find?, h1, h2]
  · intro h1 h2
    simp [List.find?, h1, h2]

/-- Counterexample to C3 as stated: when the user-level candidate exists
only as a directory and the system candidate does not exist at all, the
claim predicts that resolution returns none (no candidate exists as a real
file), but `_find_user_config` uses `Path.exists()` and returns the
directory path. -/
theorem source_resolution_dir_counterexample :
    _find_user_config fsDirConfig (_SOURCES none fsDirConfig.home) =
      some (user_home_config none "/h") ∧
    fsDirConfig.isFile (user_home_config none "/h") = false ∧
    fsDirConfig.pathExists system_config = false := by
  refine ⟨?_, ?_, ?_⟩ <;> decide

/-- Witness for C3: with both well-known locations existing as files, the
user-level one is chosen. -/
theorem source_resolution_order_witness :
    fsBothFiles.pathExists (user_home_config none fsBothFiles.home) = true ∧
    fsBothFiles.pathExists system_config = true ∧
    _find_user_config fsBothFiles (_SOURCES none fsBothFiles.home) =
      some (user_home_config none fsBothFiles.home) :=
  ⟨by decide, by decide,
   (source_resolution_order fsBothFiles none).1 (by decide)⟩

/-- Claim C6 (amended): for every path that resolves to no existing
filesystem entry at all, `load_from_file` fails with the
`FileNotFoundError` raised before any reading or validation (an error kind
distinct from a validation error); a path that resolves to an existing
directory instead fails at the OS level when the file is opened, also
without entering content validation. -/
theorem load_from_file_missing (fs : FS) (c : Configuration) (p : String)
    (h : fs.pathExists (to_absolute_path fs p) = false) :
    load_from_file fs c p = .error (.fileNotFound ("Cannot find: `" ++ p)) := by
  unfold load_from_file
  dsimp only
  rw [h, if_pos rfl]

/-- Counterexample to C6 as stated: `/cfgdir` does not resolve to an
existing file (it is a directory), yet `load_from_file` does not fail with
the missing-file error; it passes the `exists()` test and then fails when
opening the directory. -/
theorem load_from_file_dir_counterexample :
    load_from_file fsDirOnly defaultConfig "/cfgdir" =
      .error (.osError "/cfgdir") ∧
    fsDirOnly.isFile "/cfgdir" = false ∧
    fsDirOnly.pathExists "/cfgdir" = true := by
  refine ⟨?_, ?_, ?_⟩ <;> decide

/-- Witness for C6: a wholly nonexistent path yields the missing-file
error. -/
theorem load_from_file_missing_witness :
    fsTrivial.pathExists (to_absolute_path fsTrivial "/no/such/file.yaml") = false ∧
    load_from_file fsTrivial defaultConfig "/no/such/file.yaml" =
      .error (.fileNotFound ("Cannot find: `" ++ "/no/such/file.yaml")) :=
  ⟨by decide,
   load_from_file_missing fsTrivial defaultConfig "/no/such/file.yaml" (by decide)⟩

/-- Claim C9 (amended): the mapping emitted by `dump_to_yaml` never
contains an `ewatercycle_config` entry, contains a `singularity_dir` entry
exactly when that field is set (never, for a validated record), and always
contains a `parameter_sets` entry — including when the mapping is empty. -/
theorem dump_exclusions (c : Configuration) :
    ((dumpMapping c).map Prod.fst).contains "ewatercycle_config" = false ∧
    ((dumpMapping c).map Prod.fst).contains "singularity_dir" =
      c.singularity_dir.isSome ∧
    ((dumpMapping c).map Prod.fst).contains "parameter_sets" = true := by
  unfold dumpMapping
  cases hs : c.singularity_dir <;> exact ⟨rfl, rfl, rfl⟩

/-- Counterexample to C9 as stated: the default instance is valid, its
`parameter_sets` mapping is empty, yet the dumped mapping still contains a
`parameter_sets` entry. -/
theorem dump_empty_psets_counterexample :
    construct fsTrivial {} = .ok (defaultConfig, []) ∧
    defaultConfig.parameter_sets = [] ∧
    ("parameter_sets", RawValue.psets []) ∈ dumpMapping defaultConfig := by
  refine ⟨?_, ?_, ?_⟩ <;> decide

/-- Claim C8 (amended): string values for `grdc_location`, `apptainer_dir`,
`output_dir`, `parameterset_dir` and `ewatercycle_config` are
home-expanded by the `pre` validator before the existence/kind checks, so
a `~/...` value validates against the expanded location; `singularity_dir`
is not in the pre-validator's field list, so its value is checked
unexpanded. -/
theorem expanduser_fields (fs : FS) (s : String) :
    (fs.isDir (expanduser fs.home s) = true →
      construct fs { grdc_location := some (.str s) } =
        .ok ({ defaultConfig with grdc_location := expanduser fs.home s }, [])) ∧
    (fs.isDir (expanduser fs.home s) = true →
      construct fs { apptainer_dir := some (.str s) } =
        .ok ({ defaultConfig with apptainer_dir := expanduser fs.home s }, [])) ∧
    (fs.isDir (expanduser fs.home s) = true →
      construct fs { output_dir := some (.str s) } =
        .ok ({ defaultConfig with output_dir := expanduser fs.home s }, [])) ∧
    (fs.isDir (expanduser fs.home s) = true →
      construct fs { parameterset_dir := some (.str s) } =
        .ok ({ defaultConfig with parameterset_dir := expanduser fs.home s }, [])) ∧
    (fs.isFile (expanduser fs.home s) = true →
      construct fs { ewatercycle_config := some (.str s) } =
        .ok ({ defaultConfig with ewatercycle_config := some (expanduser fs.home s) }, [])) ∧
    (fs.isDir s = true →
      construct fs { singularity_dir := some (.str s) } =
        .ok ({ defaultConfig with apptainer_dir := s },
          ["singularity_dir field has been deprecated please use apptainer_dir in None"])) ∧
    (fs.pathExists s = false →
      construct fs { singularity_dir := some (.str s) } =
        .error (.validation [⟨"singularity_dir",
          "file or directory at path \"" ++ s ++ "\" does not exist"⟩])) := by
  refine ⟨?_, ?_, ?_, ?_, ?_, ?_, ?_⟩
  · intro h
    exact construct_build
      (fieldStage_build (by rw [vField_some]; exact checkDirField_build _ h)
        rfl rfl rfl rfl rfl rfl rfl rfl)
      (runRoot_clean rfl rfl)
  · intro h
    exact construct_build
      (fieldStage_build rfl rfl (by rw [vField_some]; exact checkDirField_build _ h)
        rfl rfl rfl rfl rfl rfl)
      (runRoot_clean rfl rfl)
  · intro h
    exact construct_build
      (fieldStage_build rfl rfl rfl rfl (by rw [vField_some]; exact checkDirField_build _ h)
        rfl rfl rfl rfl)
      (runRoot_clean rfl rfl)
  · intro h
    exact construct_build
      (fieldStage_build rfl rfl rfl rfl rfl (by rw [vField_some]; exact checkDirField_build _ h)
        rfl rfl rfl)
      (runRoot_clean rfl rfl)
  · intro h
    exact construct_build
      (fieldStage_build rfl rfl rfl rfl rfl rfl rfl
        (by rw [vField_some]; exact checkOptFileField_build _ h) rfl)
      (runRoot_clean rfl rfl)
  · intro h
    refine construct_build
      (fieldStage_build rfl rfl rfl
        (by
          rw [vField_some]
          show Except.map some (dirCheck fs "singularity_dir" s) = .ok (some s)
          rw [dirCheck_ok_build _ h]
          rfl)
        rfl rfl rfl rfl rfl)
      ?_
    rfl
  · intro h
    have hcheck : checkOptDirField fs "singularity_dir" false (.str s) =
        .error [⟨"singularity_dir",
          "file or directory at path \"" ++ s ++ "\" does not exist"⟩] := by
      show Except.map some (dirCheck fs "singularity_dir" s) = _
      unfold dirCheck
      rw [h, if_pos rfl]
      rfl
    have hfs : fieldStage fs { singularity_dir := some (.str s) } =
        .error [⟨"singularity_dir",
          "file or directory at path \"" ++ s ++ "\" does not exist"⟩] := by
      unfold fieldStage
      rw [vField_some, hcheck]
      rfl
    unfold construct
    rw [hfs]
    dsimp only
    rfl

/-- Counterexample to C8 as stated: `~/dir` expands to the existing
directory `/h/dir`, yet constructing with `singularity_dir = "~/dir"`
fails — the value is checked unexpanded, so the claim's inclusion of
`singularity_dir` among the expanded fields is wrong. -/
theorem singularity_no_expand_counterexample :
    fsHomeDir.isDir (expanduser fsHomeDir.home "~/dir") = true ∧
    construct fsHomeDir { singularity_dir := some (.str "~/dir") } =
      .error (.validation [⟨"singularity_dir",
        "file or directory at path \"~/dir\" does not exist"⟩]) := by
  refine ⟨?_, ?_⟩ <;> decide

/-- Witness for C8: `~/dir` is accepted for `grdc_location` (validated at
the expanded location `/h/dir`) and rejected for `singularity_dir` on the
same filesystem. -/
theorem expanduser_fields_witness :
    fsHomeDir.isDir (expanduser fsHomeDir.home "~/dir") = true ∧
    construct fsHomeDir { grdc_location := some (.str "~/dir") } =
      .ok ({ defaultConfig with grdc_location := expanduser fsHomeDir.home "~/dir" }, []) ∧
    fsHomeDir.pathExists "~/dir" = false ∧
    construct fsHomeDir { singularity_dir := some (.str "~/dir") } =
      .error (.validation [⟨"singularity_dir",
        "file or directory at path \"" ++ "~/dir" ++ "\" does not exist"⟩]) :=
  ⟨by decide,
   (expanduser_fields fsHomeDir "~/dir").1 (by decide),
   by decide,
   (expanduser_fields fsHomeDir "~/dir").2.2.2.2.2.2 (by decide)⟩

/-- Claim C7 (amended): with `parameterset_dir = P` and one raw mapping
entry under key `x` carrying directory `d` and config `cf`, construction
succeeds when both resolved paths exist — the resolved entry is named by
its key and its paths are absolute — and fails with a validation error
when the resolved config path does not exist (it also fails when only the
resolved directory is missing, which the original claim overlooked). -/
theorem parameterset_resolution (fs : FS) (P d cf : String)
    (hcwd : strStarts "/" fs.cwd = true)
    (hP : fs.isDir (expanduser fs.home P) = true) :
    (fs.pathExists (resolveCwd fs.cwd
        (joinPath (expanduser fs.home P) (expanduser fs.home d))) = true →
     fs.pathExists (resolveCwd fs.cwd
        (joinPath (expanduser fs.home P) (expanduser fs.home cf))) = true →
      construct fs
        { parameterset_dir := some (.str P)
          parameter_sets := some (.psets [("x", .mapping "" d cf)]) } =
        .ok ({ defaultConfig with
                parameterset_dir := expanduser fs.home P
                parameter_sets := [("x",
                  ⟨"x",
                   resolveCwd fs.cwd (joinPath (expanduser fs.home P) (expanduser fs.home d)),
                   resolveCwd fs.cwd (joinPath (expanduser fs.home P) (expanduser fs.home cf))⟩)] },
          []) ∧
      isAbsPath (resolveCwd fs.cwd
        (joinPath (expanduser fs.home P) (expanduser fs.home d))) = true ∧
      isAbsPath (resolveCwd fs.cwd
        (joinPath (expanduser fs.home P) (expanduser fs.home cf))) = true) ∧
    (fs.pathExists (resolveCwd fs.cwd
        (joinPath (expanduser fs.home P) (expanduser fs.home cf))) = false →
      ∃ errs, construct fs
        { parameterset_dir := some (.str P)
          parameter_sets := some (.psets [("x", .mapping "" d cf)]) } =
        .error (.validation errs)) := by
  have hf : fieldStage fs
      { parameterset_dir := some (.str P)
        parameter_sets := some (.psets [("x", .mapping "" d cf)]) } =
      .ok ⟨".", .docker, ".", none, ".", expanduser fs.home P,
           [("x", ⟨"", d, cf⟩)], none⟩ :=
    fieldStage_build rfl rfl rfl rfl rfl
      (by rw [vField_some]; exact checkDirField_build _ hP) rfl rfl rfl
  constructor
  · intro hD hC
    refine ⟨?_, resolveCwd_starts _ _ hcwd, resolveCwd_starts _ _ hcwd⟩
    refine construct_build hf ?_
    unfold runRootValidators
    rw [migrate_none rfl]
    unfold rootPsets
    dsimp only
    unfold resolveEntries
    dsimp only [ParameterSet.make_absolute]
    rw [if_neg (show ¬ (fs.pathExists (resolveCwd fs.cwd
          (joinPath (expanduser fs.home P) (expanduser fs.home d))) = false) by
        rw [hD]; simp)]
    rw [if_neg (show ¬ (fs.pathExists (resolveCwd fs.cwd
          (joinPath (expanduser fs.home P) (expanduser fs.home cf))) = false) by
        rw [hC]; simp)]
    rfl
  · intro hC
    have hcrash : ∀ E : List FieldErr,
        runRootValidators fs ⟨".", .docker, ".", none, ".", expanduser fs.home P,
          [("x", ⟨"", d, cf⟩)], none⟩ = .error E →
        ∃ errs, construct fs
          { parameterset_dir := some (.str P)
            parameter_sets := some (.psets [("x", .mapping "" d cf)]) } =
          .error (.validation errs) := by
      intro E hrr
      refine ⟨E, ?_⟩
      unfold construct
      rw [hf]
      dsimp only
      rw [hrr]
    by_cases hD : fs.pathExists (resolveCwd fs.cwd
        (joinPath (expanduser fs.home P) (expanduser fs.home d))) = false
    · refine hcrash [⟨"__root__", resolveCwd fs.cwd
          (joinPath (expanduser fs.home P) (expanduser fs.home d)) ++ " must exist"⟩] ?_
      unfold runRootValidators
      rw [migrate_none rfl]
      unfold rootPsets
      dsimp only
      unfold resolveEntries
      dsimp only [ParameterSet.make_absolute]
      rw [if_pos hD]
      rfl
    · refine hcrash [⟨"__root__", resolveCwd fs.cwd
          (joinPath (expanduser fs.home P) (expanduser fs.home cf)) ++ " must exist"⟩] ?_
      unfold runRootValidators
      rw [migrate_none rfl]
      unfold rootPsets
      dsimp only
      unfold resolveEntries
      dsimp only [ParameterSet.make_absolute]
      rw [if_neg hD, if_pos (by rw [hC])]
      rfl

/-- Counterexample to C7 as stated: the resolved config path
`/p/rel/a/cfg.yaml` exists under `P = "/p"`, yet construction fails,
because the entry's resolved directory `/p/rel/b` does not exist — the
claim's success condition mentions only the config path. -/
theorem parameterset_missing_dir_counterexample :
    fsPsets.pathExists (resolveCwd fsPsets.cwd (joinPath "/p" "rel/a/cfg.yaml")) = true ∧
    construct fsPsets
      { parameterset_dir := some (.str "/p")
        parameter_sets := some (.psets [("x", .mapping "" "rel/b" "rel/a/cfg.yaml")]) } =
      .error (.validation [⟨"__root__", "/p/rel/b must exist"⟩]) := by
  refine ⟨?_, ?_⟩ <;> decide

/-- Witness for C7: on `fsPsets`, with directory `rel/a` and config
`rel/a/cfg.yaml`, construction succeeds with the resolved, absolutely
pathed entry named `x`; with a missing config file it fails. -/
theorem parameterset_resolution_witness :
    strStarts "/" fsPsets.cwd = true ∧
    fsPsets.isDir (expanduser fsPsets.home "/p") = true ∧
    fsPsets.pathExists (resolveCwd fsPsets.cwd
      (joinPath (expanduser fsPsets.home "/p") (expanduser fsPsets.home "rel/a"))) = true ∧
    fsPsets.pathExists (resolveCwd fsPsets.cwd
      (joinPath (expanduser fsPsets.home "/p") (expanduser fsPsets.home "rel/a/cfg.yaml"))) = true ∧
    construct fsPsets
      { parameterset_dir := some (.str "/p")
        parameter_sets := some (.psets [("x", .mapping "" "rel/a" "rel/a/cfg.yaml")]) } =
      .ok ({ defaultConfig with
              parameterset_dir := expanduser fsPsets.home "/p"
              parameter_sets := [("x",
                ⟨"x",
                 resolveCwd fsPsets.cwd (joinPath (expanduser fsPsets.home "/p")
                   (expanduser fsPsets.home "rel/a")),
                 resolveCwd fsPsets.cwd (joinPath (expanduser fsPsets.home "/p")
                   (expanduser fsPsets.home "rel/a/cfg.yaml"))⟩)] },
        []) :=
  ⟨by decide, by decide, by decide, by decide,
   ((parameterset_resolution fsPsets "/p" "rel/a" "rel/a/cfg.yaml"
      (by decide) (by decide)).1 (by decide) (by decide)).1⟩

theorem migrate_grdc (c : Configuration) :
    (migrate c).1.grdc_location = c.grdc_location := by
  unfold migrate
  cases h : c.singularity_dir <;> rfl

theorem runRoot_none_inv {fs : FS} {c c' : Configuration} {ws : List String}
    (h : runRootValidators fs c = .ok (c', ws))
    (hs : c.singularity_dir = none) :
    ∃ l, resolveEntries fs c.parameterset_dir c.parameter_sets = .ok l ∧
      c' = { c with parameter_sets := l } ∧ ws = [] := by
  obtain ⟨l, hre, hceq, hws⟩ := runRoot_ok_inv h
  rw [migrate_none hs] at hre hceq hws
  exact ⟨l, hre, hceq, hws⟩

theorem checkDirField_fixed_build {fs : FS} {p : String} (loc : String)
    (hfix : expanduser fs.home p = p) (hdir : fs.isDir p = true) :
    checkDirField fs loc true (.str p) = .ok p := by
  have h := @checkDirField_build fs p loc (by rw [hfix]; exact hdir)
  rw [hfix] at h
  exact h

theorem overwrite_core (fs : FS) (a : Configuration) {a' : Configuration}
    (bg : String) (ben : ContainerEngine) (bap bou bpd : String)
    (bps : List (String × ParameterSet)) (bew : Option String)
    (hgfix : expanduser fs.home bg = bg)
    (hafix : expanduser fs.home bap = bap)
    (houfix : expanduser fs.home bou = bou)
    (hpdfix : expanduser fs.home bpd = bpd)
    (hewfix : ∀ f, bew = some f → expanduser fs.home f = f)
    (hps : resolveEntries fs bpd bps = .ok bps)
    (h : overwrite fs a ⟨bg, ben, bap, none, bou, bpd, bps, bew⟩ = .ok a') :
    a' = ⟨bg, ben, bap, none, bou, bpd, bps, bew⟩ := by
  unfold overwrite at h
  dsimp only at h
  cases h1 : setField fs a .grdc_location (.str bg) with
  | error e => rw [h1, exceptBind_err] at h; exact absurd h (by simp)
  | ok pr1 =>
  obtain ⟨a1, w1⟩ := pr1
  rw [h1, exceptBind_ok] at h
  dsimp only at h
  obtain ⟨p1, hc1, hr1⟩ := setField_grdc_ok_inv h1
  obtain ⟨s1, hs1, hp1, -⟩ := checkDirField_ok_inv hc1
  have hp1b : p1 = bg := by
    injection hs1 with hs1
    rw [hp1, ← hs1, hgfix]
  rw [hp1b] at hr1
  have ha1s : a1.singularity_dir = none := runRoot_sing hr1
  obtain ⟨l1, hre1, he1, -⟩ := runRoot_ok_inv hr1
  have ha1g : a1.grdc_location = bg := by
    rw [he1]
    simp only [migrate_grdc]
  cases h2 : setField fs a1 .container_engine (.str (engineToString ben)) with
  | error e => rw [h2, exceptBind_err] at h; exact absurd h (by simp)
  | ok pr2 =>
  obtain ⟨a2, w2⟩ := pr2
  rw [h2, exceptBind_ok] at h
  dsimp only at h
  obtain ⟨en2, hc2, hr2⟩ := setField_engine_ok_inv h2
  have hen2 : en2 = ben := by
    have hrt := engine_roundtrip "container_engine" ben
    rw [hc2] at hrt
    simpa using hrt
  rw [hen2] at hr2
  obtain ⟨l2, hre2, he2, -⟩ := runRoot_none_inv hr2 ha1s
  have ha2g : a2.grdc_location = bg := by rw [he2]; exact ha1g
  have ha2en : a2.container_engine = ben := by rw [he2]
  have ha2s : a2.singularity_dir = none := by rw [he2]; exact ha1s
  cases h3 : setField fs a2 .apptainer_dir (.str bap) with
  | error e => rw [h3, exceptBind_err] at h; exact absurd h (by simp)
  | ok pr3 =>
  obtain ⟨a3, w3⟩ := pr3
  rw [h3, exceptBind_ok] at h
  dsimp only at h
  obtain ⟨p3, hc3, hr3⟩ := setField_apptainer_ok_inv h3
  obtain ⟨s3, hs3, hp3, -⟩ := checkDirField_ok_inv hc3
  have hp3b : p3 = bap := by
    injection hs3 with hs3
    rw [hp3, ← hs3, hafix]
  rw [hp3b] at hr3
  obtain ⟨l3, hre3, he3, -⟩ := runRoot_none_inv hr3 ha2s
  have ha3g : a3.grdc_location = bg := by rw [he3]; exact ha2g
  have ha3en : a3.container_engine = ben := by rw [he3]; exact ha2en
  have ha3ap : a3.apptainer_dir = bap := by rw [he3]
  have ha3s : a3.singularity_dir = none := by rw [he3]; exact ha2s
  cases h4 : setField fs a3 .singularity_dir (optRaw none) with
  | error e => rw [h4, exceptBind_err] at h; exact absurd h (by simp)
  | ok pr4 =>
  obtain ⟨a4, w4⟩ := pr4
  rw [h4, exceptBind_ok] at h
  dsimp only at h
  obtain ⟨p4, hc4, hr4⟩ := setField_sing_ok_inv h4
  have hc4n : checkOptDirField fs "singularity_dir" false .nullv = .ok p4 := hc4
  have hp4 : p4 = none := by
    rcases checkOptDirField_ok_inv hc4n with ⟨-, hp⟩ | ⟨s, hns, -, -⟩
    · exact hp
    · exact absurd hns (by simp)
  rw [hp4] at hr4
  obtain ⟨l4, hre4, he4, -⟩ := runRoot_none_inv hr4 rfl
  have ha4g : a4.grdc_location = bg := by rw [he4]; exact ha3g
  have ha4en : a4.container_engine = ben := by rw [he4]; exact ha3en
  have ha4ap : a4.apptainer_dir = bap := by rw [he4]; exact ha3ap
  have ha4s : a4.singularity_dir = none := by rw [he4]
  cases h5 : setField fs a4 .output_dir (.str bou) with
  | error e => rw [h5, exceptBind_err] at h; exact absurd h (by simp)
  | ok pr5 =>
  obtain ⟨a5, w5⟩ := pr5
  rw [h5, exceptBind_ok] at h
  dsimp only at h
  obtain ⟨p5, hc5, hr5⟩ := setField_output_ok_inv h5
  obtain ⟨s5, hs5, hp5, -⟩ := checkDirField_ok_inv hc5
  have hp5b : p5 = bou := by
    injection hs5 with hs5
    rw [hp5, ← hs5, houfix]
  rw [hp5b] at hr5
  obtain ⟨l5, hre5, he5, -⟩ := runRoot_none_inv hr5 ha4s
  have ha5g : a5.grdc_location = bg := by rw [he5]; exact ha4g
  have ha5en : a5.container_engine = ben := by rw [he5]; exact ha4en
  have ha5ap : a5.apptainer_dir = bap := by rw [he5]; exact ha4ap
  have ha5ou : a5.output_dir = bou := by rw [he5]
  have ha5s : a5.singularity_dir = none := by rw [he5]; exact ha4s
  cases h6 : setField fs a5 .parameterset_dir (.str bpd) with
  | error e => rw [h6, exceptBind_err] at h; exact absurd h (by simp)
  | ok pr6 =>
  obtain ⟨a6, w6⟩ := pr6
  rw [h6, exceptBind_ok] at h
  dsimp only at h
  obtain ⟨p6, hc6, hr6⟩ := setField_pdir_ok_inv h6
  obtain ⟨s6, hs6, hp6, -⟩ := checkDirField_ok_inv hc6
  have hp6b : p6 = bpd := by
    injection hs6 with hs6
    rw [hp6, ← hs6, hpdfix]
  rw [hp6b] at hr6
  obtain ⟨l6, hre6, he6, -⟩ := runRoot_none_inv hr6 ha5s
  have ha6g : a6.grdc_location = bg := by rw [he6]; exact ha5g
  have ha6en : a6.container_engine = ben := by rw [he6]; exact ha5en
  have ha6ap : a6.apptainer_dir = bap := by rw [he6]; exact ha5ap
  have ha6ou : a6.output_dir = bou := by rw [he6]; exact ha5ou
  have ha6pd : a6.parameterset_dir = bpd := by rw [he6]
  have ha6s : a6.singularity_dir = none := by rw [he6]; exact ha5s
  cases h7 : setField fs a6 .parameter_sets
      (.psets (bps.map fun kp => (kp.1, RawPS.already kp.2))) with
  | error e => rw [h7, exceptBind_err] at h; exact absurd h (by simp)
  | ok pr7 =>
  obtain ⟨a7, w7⟩ := pr7
  rw [h7, exceptBind_ok] at h
  dsimp only at h
  obtain ⟨p7, hc7, hr7⟩ := setField_psets_ok_inv h7
  have hp7 : p7 = bps := by
    have hc7b : checkPsetsField "parameter_sets"
        (.psets (bps.map fun kp => (kp.1, RawPS.already kp.2))) = .ok bps := by
      rw [show checkPsetsField "parameter_sets"
            (.psets (bps.map fun kp => (kp.1, RawPS.already kp.2))) =
          .ok ((bps.map fun kp => (kp.1, RawPS.already kp.2)).map
            fun kp => (kp.1, promotePS kp.2)) from rfl]
      rw [promote_already]
    rw [hc7] at hc7b
    simpa using hc7b
  rw [hp7] at hr7
  obtain ⟨l7, hre7, he7, -⟩ := runRoot_none_inv hr7 ha6s
  have hre7b : resolveEntries fs bpd bps = .ok l7 := by
    rw [← ha6pd]
    exact hre7
  rw [hps] at hre7b
  injection hre7b with hre7b
  rw [← hre7b] at he7
  have ha7g : a7.grdc_location = bg := by rw [he7]; exact ha6g
  have ha7en : a7.container_engine = ben := by rw [he7]; exact ha6en
  have ha7ap : a7.apptainer_dir = bap := by rw [he7]; exact ha6ap
  have ha7ou : a7.output_dir = bou := by rw [he7]; exact ha6ou
  have ha7pd : a7.parameterset_dir = bpd := by rw [he7]; exact ha6pd
  have ha7ps : a7.parameter_sets = bps := by rw [he7]
  have ha7s : a7.singularity_dir = none := by rw [he7]; exact ha6s
  cases h8 : setField fs a7 .ewatercycle_config (optRaw bew) with
  | error e => rw [h8, exceptBind_err] at h; exact absurd h (by simp)
  | ok pr8 =>
  obtain ⟨a8, w8⟩ := pr8
  rw [h8, exceptBind_ok] at h
  dsimp only at h
  obtain ⟨p8, hc8, hr8⟩ := setField_ewc_ok_inv h8
  have hp8 : p8 = bew := by
    cases hbew : bew with
    | none =>
      rw [hbew] at hc8
      have hc8n : checkOptFileField fs "ewatercycle_config" .nullv = .ok p8 := hc8
      rcases checkOptFileField_ok_inv hc8n with ⟨-, hp⟩ | ⟨s, hns, -, -⟩
      · exact hp
      · exact absurd hns (by simp)
    | some f =>
      rw [hbew] at hc8
      have hc8s : checkOptFileField fs "ewatercycle_config" (.str f) = .ok p8 := hc8
      rcases checkOptFileField_ok_inv hc8s with ⟨hns, -⟩ | ⟨s, hss, hp, -⟩
      · exact absurd hns (by simp)
      · injection hss with hss
        rw [hp, ← hss, hewfix f hbew]
  rw [hp8] at hr8
  obtain ⟨l8, hre8, he8, -⟩ := runRoot_none_inv hr8 ha7s
  have hre8b : resolveEntries fs bpd bps = .ok l8 := by
    rw [← ha7pd, ← ha7ps]
    exact hre8
  rw [hps] at hre8b
  injection hre8b with hre8b
  rw [← hre8b] at he8
  replace h : Except.ok a8 = Except.ok a' := h
  injection h with h
  rw [← h, he8]
  dsimp only
  rw [ha7g, ha7en, ha7ap, ha7s, ha7ou, ha7pd]

/-- Claim C2 (amended): for valid instances whose field values are fixed
points of home expansion (`invChk`, which holds for every validated
instance except those carrying a literal `~`-prefixed directory smuggled
through the deprecated `singularity_dir` migration), a successful
`A.overwrite(B)` leaves every field of `A` equal to the corresponding
field of `B` — the result record equals `B`.  Each replacement is one
`setField` assignment through the full validation pipeline, in field
declaration order, updating the receiver in place (embedded as state
passing). -/
theorem overwrite_fields_eq (fs : FS) (a b a' : Configuration)
    (hb : invChk fs b = true) (h : overwrite fs a b = .ok a') : a' = b := by
  obtain ⟨bg, ben, bap, bsi, bou, bpd, bps, bew⟩ := b
  cases bsi with
  | some d0 =>
    exfalso
    unfold invChk at hb
    simp at hb
  | none =>
  unfold invChk at hb
  simp only [Bool.and_eq_true, beq_iff_eq, List.all_eq_true, Option.isNone] at hb
  obtain ⟨⟨⟨⟨⟨⟨-, hb2⟩, hb3⟩, hb4⟩, hb5⟩, hb6⟩, hb7⟩ := hb
  have hps : resolveEntries fs bpd bps = .ok bps := by
    apply resolveEntries_fixed
    intro kp hm
    have := hb7 kp hm
    simp only [Bool.and_eq_true, beq_iff_eq] at this
    obtain ⟨⟨⟨⟨hn, hd⟩, hc⟩, hde⟩, hce⟩ := this
    exact ⟨hn, hd, hc, hde, hce⟩
  cases bew with
  | none =>
    exact overwrite_core fs a bg ben bap bou bpd bps none hb2 hb3 hb4 hb5
      (fun f hf => absurd hf (by simp)) hps h
  | some f =>
    have hf6 : expanduser fs.home f = f := by
      simp only [Bool.and_eq_true, beq_iff_eq] at hb6
      exact hb6.1
    exact overwrite_core fs a bg ben bap bou bpd bps (some f) hb2 hb3 hb4 hb5
      (fun g hg => by injection hg with hg; rw [← hg]; exact hf6) hps h

/-- Counterexample to C2 as stated: both instances are validly
constructed, `overwrite` completes successfully, yet the receiver's
`apptainer_dir` (`/h/x`, the home-expanded value) differs from the
source's (`~/x`, smuggled unexpanded through the deprecated
`singularity_dir` migration). -/
theorem overwrite_tilde_counterexample :
    construct fsTilde2 {} = .ok (defaultConfig, []) ∧
    construct fsTilde2 { singularity_dir := some (.str "~/x") } =
      .ok ({ defaultConfig with apptainer_dir := "~/x" },
        ["singularity_dir field has been deprecated please use apptainer_dir in None"]) ∧
    overwrite fsTilde2 defaultConfig { defaultConfig with apptainer_dir := "~/x" } =
      .ok ({ defaultConfig with apptainer_dir := "/h/x" }) ∧
    ({ defaultConfig with apptainer_dir := "/h/x" } : Configuration).apptainer_dir ≠
      ({ defaultConfig with apptainer_dir := "~/x" } : Configuration).apptainer_dir := by
  refine ⟨?_, ?_, ?_, ?_⟩ <;> decide

/-- Witness for C2: a concrete valid pair on `fsMix` for which `overwrite`
succeeds and the receiver ends up equal to the source. -/
theorem overwrite_fields_eq_witness :
    invChk fsMix { defaultConfig with
                    apptainer_dir := "/d"
                    ewatercycle_config := some "/f.yaml" } = true ∧
    overwrite fsMix defaultConfig
        { defaultConfig with
            apptainer_dir := "/d"
            ewatercycle_config := some "/f.yaml" } =
      .ok ({ defaultConfig with
              apptainer_dir := "/d"
              ewatercycle_config := some "/f.yaml" }) ∧
    ({ defaultConfig with
        apptainer_dir := "/d"
        ewatercycle_config := some "/f.yaml" } : Configuration) =
      { defaultConfig with
          apptainer_dir := "/d"
          ewatercycle_config := some "/f.yaml" } :=
  ⟨by decide, by decide,
   overwrite_fields_eq fsMix defaultConfig
     { defaultConfig with
         apptainer_dir := "/d"
         ewatercycle_config := some "/f.yaml" }
     { defaultConfig with
         apptainer_dir := "/d"
         ewatercycle_config := some "/f.yaml" }
     (by decide) (by decide)⟩

theorem rawOfDump {c : Configuration} (hs : c.singularity_dir = none) :
    rawOfMapping (dumpMapping c) =
      { grdc_location := some (.str c.grdc_location)
        container_engine := some (.str (engineToString c.container_engine))
        apptainer_dir := some (.str c.apptainer_dir)
        output_dir := some (.str c.output_dir)
        parameterset_dir := some (.str c.parameterset_dir)
        parameter_sets := some (.psets (c.parameter_sets.map
          fun kp => (kp.1, .mapping kp.2.name kp.2.directory kp.2.config))) } := by
  unfold dumpMapping
  rw [hs]
  rfl

/-- Claim C1 (amended): on a filesystem whose home and working directories
are absolute and whose working directory exists, any validly constructed
instance whose `apptainer_dir` does not begin with a literal `~` (the one
value the deprecated `singularity_dir` migration can smuggle in
unexpanded) round-trips: constructing a new instance from the dumped
mapping succeeds and yields the same fields, except that the provenance
field `ewatercycle_config` of the new instance is `none`. -/
theorem roundtrip_fields_eq (fs : FS) (raw : RawConfig) (c : Configuration)
    (ws : List String) (h : construct fs raw = .ok (c, ws))
    (hh : strStarts "/" fs.home = true) (hc : strStarts "/" fs.cwd = true)
    (hdot : fs.isDir "." = true)
    (hap : strStarts "~" c.apptainer_dir = false) :
    construct fs (rawOfMapping (dumpMapping c)) =
      .ok ({ c with ewatercycle_config := none }, []) := by
  have hsing : c.singularity_dir = none := construct_ok_sing h
  obtain ⟨c0, hf, hr⟩ := construct_ok_inv h
  obtain ⟨l, hre, hceq, -⟩ := runRoot_ok_inv hr
  obtain ⟨h1, h2, h3, h4, h5, h6, h7, h8, h9⟩ := fieldStage_ok_inv hf
  have hkeep := migrate_keeps c0
  have hg : c.grdc_location = c0.grdc_location := by rw [hceq]; exact hkeep.1
  have ho : c.output_dir = c0.output_dir := by rw [hceq]; exact hkeep.2.2.1
  have hpd : c.parameterset_dir = c0.parameterset_dir := by
    rw [hceq]; exact hkeep.2.2.2.1
  have hl : c.parameter_sets = l := by rw [hceq]
  have dirprop : ∀ {o : Option RawValue} {loc : String} {val : String},
      vField o "." (checkDirField fs loc true) = .ok val →
      expanduser fs.home val = val ∧ fs.isDir val = true := by
    intro o loc val hv
    rcases vField_ok_inv hv with ⟨-, hval⟩ | ⟨rv, -, hcheck⟩
    · subst hval
      exact ⟨rfl, hdot⟩
    · obtain ⟨s, -, hval, hdir⟩ := checkDirField_ok_inv hcheck
      subst hval
      exact ⟨expanduser_idem fs.home s hh, hdir⟩
  obtain ⟨hgfix0, hgdir0⟩ := dirprop h1
  obtain ⟨hofix0, hodir0⟩ := dirprop h5
  obtain ⟨hpfix0, hpdir0⟩ := dirprop h6
  have hgfix : expanduser fs.home c.grdc_location = c.grdc_location := by
    rw [hg]; exact hgfix0
  have hgdir : fs.isDir c.grdc_location = true := by rw [hg]; exact hgdir0
  have hofix : expanduser fs.home c.output_dir = c.output_dir := by
    rw [ho]; exact hofix0
  have hodir : fs.isDir c.output_dir = true := by rw [ho]; exact hodir0
  have hpfix : expanduser fs.home c.parameterset_dir = c.parameterset_dir := by
    rw [hpd]; exact hpfix0
  have hpdir : fs.isDir c.parameterset_dir = true := by rw [hpd]; exact hpdir0
  have hafix : expanduser fs.home c.apptainer_dir = c.apptainer_dir :=
    expanduser_eq_self hap
  have hadir : fs.isDir c.apptainer_dir = true := by
    rcases vField_ok_inv h4 with ⟨-, hs0⟩ | ⟨rv, -, hco⟩
    · have heq : c.apptainer_dir = c0.apptainer_dir := by
        rw [hceq]
        show ((migrate c0).1).apptainer_dir = c0.apptainer_dir
        rw [migrate_none hs0]
      rw [heq]
      exact (dirprop h3).2
    · rcases checkOptDirField_ok_inv hco with ⟨-, hs0⟩ | ⟨s, -, hs0, hdir⟩
      · have heq : c.apptainer_dir = c0.apptainer_dir := by
          rw [hceq]
          show ((migrate c0).1).apptainer_dir = c0.apptainer_dir
          rw [migrate_none hs0]
        rw [heq]
        exact (dirprop h3).2
      · have heq : c.apptainer_dir = s := by
          rw [hceq]
          show ((migrate c0).1).apptainer_dir = s
          unfold migrate
          rw [hs0]
        rw [heq]
        exact hdir
  have hpsfacts : ∀ kp ∈ c.parameter_sets, kp.2.name = kp.1 ∧
      isAbsPath kp.2.directory = true ∧ isAbsPath kp.2.config = true ∧
      fs.pathExists kp.2.directory = true ∧ fs.pathExists kp.2.config = true := by
    rw [hl]
    exact resolveEntries_ok_inv hc hre
  rw [rawOfDump hsing]
  have hrecEq : ({ c with ewatercycle_config := none } : Configuration) =
      ⟨c.grdc_location, c.container_engine, c.apptainer_dir, none,
       c.output_dir, c.parameterset_dir, c.parameter_sets, none⟩ := by
    rw [hsing]
  refine construct_build (fieldStage_build
      (by rw [vField_some]; exact checkDirField_fixed_build _ hgfix hgdir)
      (by rw [vField_some]; exact engine_roundtrip _ _)
      (by rw [vField_some]; exact checkDirField_fixed_build _ hafix hadir)
      rfl
      (by rw [vField_some]; exact checkDirField_fixed_build _ hofix hodir)
      (by rw [vField_some]; exact checkDirField_fixed_build _ hpfix hpdir)
      (by
        show vField (some (.psets (c.parameter_sets.map
            fun kp => (kp.1, .mapping kp.2.name kp.2.directory kp.2.config)))) []
            (checkPsetsField "parameter_sets") = .ok c.parameter_sets
        rw [vField_some]
        rw [show checkPsetsField "parameter_sets"
              (.psets (c.parameter_sets.map
                fun kp => (kp.1, .mapping kp.2.name kp.2.directory kp.2.config))) =
            .ok ((c.parameter_sets.map
              fun kp => (kp.1, .mapping kp.2.name kp.2.directory kp.2.config)).map
                fun kp => (kp.1, promotePS kp.2)) from rfl]
        rw [promote_dump])
      rfl rfl) ?_
  rw [hrecEq]
  exact runRoot_clean rfl (resolveEntries_fixed fs c.parameterset_dir
    c.parameter_sets hpsfacts)

/-- Counterexample to C1 as stated: a validly constructed instance whose
deprecated `singularity_dir` was a literal `~/x` directory ends up with
`apptainer_dir = "~/x"` (the migration copies it unexpanded); the dump
emits `~/x`, and reconstruction expands it to `/h/x`, which does not
exist, so the round-trip fails validation instead of reproducing the
fields. -/
theorem roundtrip_tilde_counterexample :
    construct fsTilde { singularity_dir := some (.str "~/x") } =
      .ok ({ defaultConfig with apptainer_dir := "~/x" },
        ["singularity_dir field has been deprecated please use apptainer_dir in None"]) ∧
    construct fsTilde
        (rawOfMapping (dumpMapping ({ defaultConfig with apptainer_dir := "~/x" }))) =
      .error (.validation [⟨"apptainer_dir",
        "file or directory at path \"/h/x\" does not exist"⟩]) := by
  refine ⟨?_, ?_⟩ <;> decide

/-- Witness for C1: a file-sourced instance on `fsMix` round-trips to an
equal instance with cleared provenance. -/
theorem roundtrip_fields_eq_witness :
    construct fsMix
        { apptainer_dir := some (.str "/d")
          ewatercycle_config := some (.str "/f.yaml") } =
      .ok ({ defaultConfig with
              apptainer_dir := "/d"
              ewatercycle_config := some "/f.yaml" }, []) ∧
    strStarts "/" fsMix.home = true ∧
    strStarts "/" fsMix.cwd = true ∧
    fsMix.isDir "." = true ∧
    strStarts "~" ({ defaultConfig with
        apptainer_dir := "/d"
        ewatercycle_config := some "/f.yaml" } : Configuration).apptainer_dir = false ∧
    construct fsMix (rawOfMapping (dumpMapping
        ({ defaultConfig with
            apptainer_dir := "/d"
            ewatercycle_config := some "/f.yaml" }))) =
      .ok ({ defaultConfig with apptainer_dir := "/d" }, []) :=
  ⟨by decide, by decide, by decide, by decide, by decide,
   roundtrip_fields_eq fsMix
     { apptainer_dir := some (.str "/d")
       ewatercycle_config := some (.str "/f.yaml") }
     { defaultConfig with
         apptainer_dir := "/d"
         ewatercycle_config := some "/f.yaml" }
     [] (by decide) (by decide) (by decide) (by decide) (by decide)⟩
